import Mathlib

/-!
Verification of the AstolfoFinder matching core.

This file gives a shallow embedding, in Lean, of the two core services of the
repository:

* `src/server/src/services/swipe.service.ts`   (`SwipeService`)
* `src/server/src/services/discovery.service.ts` (`DiscoveryService`)

and proves the behavioural properties claimed by the specification.

Modelling conventions:

* Database ids and user ids are `String` (the code stores string UUIDs and
  compares them with the JS `<` operator, i.e. lexicographically by code unit;
  `lexLt` below realises that comparison on code points, which agrees with the
  JS order on all BMP strings).
* Instants and UTC day indices are `Nat`: `today` stands for the value of
  `getTodayUtc()` (the swipe's quota bucket) and `now` for `new Date()`.
  A stored `swipeDate` is always an exact UTC midnight, so the range query
  `gte: todayUtc, lt: tomorrowUtc` of `getSwipeCountToday` is equality of day
  indices.
* JS floating point numbers that feed arithmetic are modelled as `ℚ`; the
  float-valued `haversineDistance` is abstracted as an explicit function
  parameter `dist` of the discovery pipeline, while the formula itself is
  embedded over `ℝ` (`haversineDistance` below) for the algebraic claims.
* Fallible operations return `Except`: each distinct `throw new Error(...)` of
  the source is one constructor of the error type, and `errMessage` maps each
  constructor to the exact message string thrown by the code.
* `prisma` tables are lists of rows; `findUnique`/`findMany` become
  `List.find?`/`List.filter`; `Array.prototype.sort` with a consistent
  comparator (a documented stable sort) is modelled by the stable
  `List.insertionSort` on the relation `comparator a b ≤ 0`.
-/

namespace AstolfoFinder

/-! ### Data model shared by both services -/

/-- The `direction: 'like' | 'pass'` union type. -/
inductive Direction where
  | like
  | pass
deriving DecidableEq

/-- String rendering of a `Direction`, as interpolated by `Swiped ${direction}`. -/
def Direction.render : Direction → String
  | .like => "like"
  | .pass => "pass"

/-- A row of the `swipe` table. -/
structure SwipeRow where
  id : String
  actorId : String
  targetId : String
  direction : Direction
  swipeDate : Nat
deriving DecidableEq

/-- A row of the `match` table. `lastInteraction` is nullable. -/
structure MatchRow where
  id : String
  user1Id : String
  user2Id : String
  createdAt : Nat
  lastInteraction : Option Nat
deriving DecidableEq

/-- An entry of `SwipeService.matchMessageStore`. -/
structure StoredMatchMessage where
  id : String
  matchId : String
  senderId : String
  content : String
  createdAt : Nat
deriving DecidableEq

/-- The state read and written by `SwipeService`: the `user`, `swipe` and
`match` tables plus the in-process message store (modelled as one list of rows
tagged with their `matchId`; `ensureMessageStore` + `push` becomes an append). -/
structure SwipeDB where
  users : List String
  swipes : List SwipeRow
  matchRows : List MatchRow
  messages : List StoredMatchMessage
deriving DecidableEq

/-- The error taxonomy of `SwipeService`: one constructor per distinct
`throw new Error(...)` site. -/
inductive SwipeErr where
  | selfSwipe
  | targetNotFound
  | quotaExceeded
  | duplicateSwipe
  | matchNotFound
  | unauthorizedMatch
  | emptyContent
  | contentTooLong
deriving DecidableEq

/-- The constant `SwipeService.DAILY_SWIPE_LIMIT`. -/
def DAILY_SWIPE_LIMIT : Nat := 100

/-- The message string carried by each thrown `Error`. -/
def errMessage : SwipeErr → String
  | .selfSwipe => "Cannot swipe on yourself"
  | .targetNotFound => "Target user not found"
  | .quotaExceeded =>
      "Daily swipe limit of " ++ toString DAILY_SWIPE_LIMIT ++
        " reached. Limit resets at midnight UTC."
  | .duplicateSwipe => "You have already swiped on this user"
  | .matchNotFound => "Match not found"
  | .unauthorizedMatch => "Unauthorized to view this match"
  | .emptyContent => "Message content cannot be empty"
  | .contentTooLong => "Message content must be 1000 characters or less"

/-! ### Lexicographic id comparison (the JS `<` on id strings) -/

/-- Lexicographic comparison of code-point lists, as JS `<` compares strings. -/
def lexLtChars : List Char → List Char → Bool
  | _, [] => false
  | [], _ :: _ => true
  | a :: as, b :: bs => if a < b then true else if b < a then false else lexLtChars as bs

/-- JS `actorId < targetId` on id strings. -/
def lexLt (a b : String) : Bool := lexLtChars a.data b.data

/-! ### SwipeService -/

/-- Embedding of `SwipeService.getSwipeCountToday`: the number of the actor's swipes whose
`swipeDate` falls inside the current UTC day (day indices, see header). -/
def getSwipeCountToday (db : SwipeDB) (userId : String) (today : Nat) : Nat :=
  (db.swipes.filter (fun s => s.actorId == userId && s.swipeDate == today)).length

/-- The `SwipeResult` interface. -/
structure SwipeResult where
  success : Bool
  swipeId : String
  matchCreated : Bool
  message : String
deriving DecidableEq

/-- Embedding of `SwipeService.recordSwipe`.  `today` is the UTC day index (`getTodayUtc()`),
`now` the current instant (`new Date()`), and `newSwipeId`/`newMatchId` the ids
generated by the store for the created rows. -/
def recordSwipe (db : SwipeDB) (actorId targetId : String) (direction : Direction)
    (today now : Nat) (newSwipeId newMatchId : String) :
    Except SwipeErr (SwipeDB × SwipeResult) :=
  if actorId == targetId then
    .error .selfSwipe
  else if !(db.users.contains targetId) then
    .error .targetNotFound
  else if DAILY_SWIPE_LIMIT ≤ getSwipeCountToday db actorId today then
    .error .quotaExceeded
  else if (db.swipes.find? (fun s => s.actorId == actorId && s.targetId == targetId)).isSome then
    .error .duplicateSwipe
  else
    let db1 : SwipeDB :=
      { db with swipes := db.swipes ++ [⟨newSwipeId, actorId, targetId, direction, today⟩] }
    match direction with
    | .pass => .ok (db1, ⟨true, newSwipeId, false, "Swiped " ++ Direction.pass.render⟩)
    | .like =>
      match db1.swipes.find? (fun s => s.actorId == targetId && s.targetId == actorId) with
      | none => .ok (db1, ⟨true, newSwipeId, false, "Swiped " ++ Direction.like.render⟩)
      | some reverseSwipe =>
        if reverseSwipe.direction == Direction.like then
          let user1Id := if lexLt actorId targetId then actorId else targetId
          let user2Id := if lexLt actorId targetId then targetId else actorId
          if (db1.matchRows.find? (fun m => m.user1Id == user1Id && m.user2Id == user2Id)).isSome then
            .ok (db1, ⟨true, newSwipeId, false, "Swiped " ++ Direction.like.render⟩)
          else
            .ok ({ db1 with matchRows := db1.matchRows ++ [⟨newMatchId, user1Id, user2Id, now, some now⟩] },
                 ⟨true, newSwipeId, true, "Mutual like! Match created"⟩)
        else
          .ok (db1, ⟨true, newSwipeId, false, "Swiped " ++ Direction.like.render⟩)

/-- Embedding of `SwipeService.assertMatchParticipant`. -/
def assertMatchParticipant (db : SwipeDB) (matchId userId : String) :
    Except SwipeErr MatchRow :=
  match db.matchRows.find? (fun m => m.id == matchId) with
  | none => .error .matchNotFound
  | some m =>
    if !(m.user1Id == userId) && !(m.user2Id == userId) then .error .unauthorizedMatch
    else .ok m

/-- The `MatchMessage` interface (the ISO timestamp string is abstracted to the
instant itself). -/
structure MatchMessage where
  id : String
  matchId : String
  senderId : String
  content : String
  createdAt : Nat
deriving DecidableEq

/-- Embedding of `SwipeService.toMatchMessage`. -/
def toMatchMessage (m : StoredMatchMessage) : MatchMessage :=
  ⟨m.id, m.matchId, m.senderId, m.content, m.createdAt⟩

/-- JS `String.prototype.trim`: strip leading and trailing whitespace. -/
def trimChars (cs : List Char) : List Char :=
  ((cs.dropWhile Char.isWhitespace).reverse.dropWhile Char.isWhitespace).reverse

/-- JS `content.trim()` on a string. -/
def jsTrim (s : String) : String := String.mk (trimChars s.data)

/-- Embedding of `SwipeService.addMatchMessage`.  `now` is `new Date()`, `newId` the
`randomUUID()` of the created message. -/
def addMatchMessage (db : SwipeDB) (matchId senderId content : String)
    (now : Nat) (newId : String) : Except SwipeErr (SwipeDB × MatchMessage) :=
  let trimmedContent := jsTrim content
  if trimmedContent == "" then
    .error .emptyContent
  else if 1000 < trimmedContent.length then
    .error .contentTooLong
  else
    match assertMatchParticipant db matchId senderId with
    | .error e => .error e
    | .ok m =>
      let message : StoredMatchMessage := ⟨newId, m.id, senderId, trimmedContent, now⟩
      let db1 : SwipeDB :=
        { db with
          messages := db.messages ++ [message],
          matchRows := db.matchRows.map (fun mr =>
            if mr.id == m.id then { mr with lastInteraction := some now } else mr) }
      .ok (db1, toMatchMessage message)

/-! ### Sequences of recordSwipe calls -/

/-- One `recordSwipe` call together with its ambient clock values and the ids
generated by the store for that call. -/
structure SwipeEvent where
  actorId : String
  targetId : String
  direction : Direction
  today : Nat
  now : Nat
  newSwipeId : String
  newMatchId : String
deriving DecidableEq

/-- Apply one `recordSwipe` call; a thrown error leaves the store unchanged. -/
def stepSwipe (db : SwipeDB) (e : SwipeEvent) : SwipeDB :=
  match recordSwipe db e.actorId e.targetId e.direction e.today e.now e.newSwipeId e.newMatchId with
  | .ok (db1, _) => db1
  | .error _ => db

/-- Apply a sequence of `recordSwipe` calls. -/
def runSwipes (db : SwipeDB) (es : List SwipeEvent) : SwipeDB :=
  es.foldl stepSwipe db

/-- A store with the given registered users and no swipes, matches or messages. -/
def initDB (users : List String) : SwipeDB := ⟨users, [], [], []⟩

/-- Number of SwipeAction rows for the ordered pair `(a, b)`. -/
def pairSwipeCount (db : SwipeDB) (a b : String) : Nat :=
  (db.swipes.filter (fun s => s.actorId == a && s.targetId == b)).length

/-- Number of Match rows for the unordered pair `{a, b}`. -/
def pairMatchCount (db : SwipeDB) (a b : String) : Nat :=
  (db.matchRows.filter (fun m =>
    (m.user1Id == a && m.user2Id == b) || (m.user1Id == b && m.user2Id == a))).length

/-- Data invariant maintained by the swipe service: every Match is normalized
(`user1Id` lexicographically below `user2Id`) and is backed by SwipeAction rows
in both directions. -/
def MatchesWF (db : SwipeDB) : Prop :=
  ∀ m ∈ db.matchRows, lexLt m.user1Id m.user2Id = true ∧
    (∃ s ∈ db.swipes, s.actorId = m.user1Id ∧ s.targetId = m.user2Id) ∧
    (∃ s ∈ db.swipes, s.actorId = m.user2Id ∧ s.targetId = m.user1Id)

/-! ### DiscoveryService data model -/

/-- A row of the `hobby` table. -/
structure Hobby where
  id : String
  name : String
  description : Option String
  category : Option String
deriving DecidableEq

/-- A photo as returned to the client. -/
structure Photo where
  id : String
  url : String
  isPrimary : Bool
deriving DecidableEq

/-- A row of the `profileHobby` join table, with its included `hobby` record. -/
structure ProfileHobby where
  profileId : String
  hobbyId : String
  hobby : Hobby
deriving DecidableEq

/-- A row of the `profile` table (the fields read by `DiscoveryService`). -/
structure Profile where
  id : String
  userId : String
  displayName : Option String
  age : Option Int
  gender : Option String
  pronouns : Option String
  bio : Option String
  status : Option String
  locationLat : Option ℚ
  locationLng : Option ℚ
  radiusPref : Option ℚ
  photos : List Photo
deriving DecidableEq

/-- The state read by `DiscoveryService.getNearbyProfiles`. -/
structure DiscoveryDB where
  profiles : List Profile
  profileHobbies : List ProfileHobby
  swipes : List SwipeRow
deriving DecidableEq

/-- The validated `DiscoveryQueryInput`. -/
structure DiscoveryQueryInput where
  limit : Option Nat
  offset : Option Nat
  radius : Option ℚ
  genderPreference : Option String
  minAge : Option Int
  maxAge : Option Int
  sameCity : Option Bool
deriving DecidableEq

/-- The `DiscoveryProfile` interface returned to the client. -/
structure DiscoveryProfile where
  id : String
  userId : String
  displayName : Option String
  age : Option Int
  gender : Option String
  pronouns : Option String
  bio : Option String
  status : Option String
  locationLat : Option ℚ
  locationLng : Option ℚ
  distance : Option ℚ
  sharedHobbies : List Hobby
  photos : List Photo
deriving DecidableEq

/-- The `DiscoveryResult` interface. -/
structure DiscoveryResult where
  profiles : List DiscoveryProfile
  hasMore : Bool
  total : Nat
deriving DecidableEq

/-- The single error thrown by `getNearbyProfiles` itself. -/
inductive DiscoveryErr where
  | locationRequired
deriving DecidableEq

/-! ### JS truthiness helpers (the code tests numbers, strings and options
with plain `!x` / `x && y`, so `null`, `0`, `""` and `false` are all falsy) -/

/-- JS falsiness of a nullable number: `null` and `0` are falsy. -/
def numFalsy : Option ℚ → Bool
  | none => true
  | some q => q == 0

/-- JS `x || d` on a nullable number (`null` and `0` fall through to `d`). -/
def jsOrNum : Option ℚ → ℚ → ℚ
  | none, d => d
  | some q, d => if q == 0 then d else q

/-- JS `x || d` on a nullable int (`null` and `0` fall through to `d`). -/
def jsOrNat : Option Nat → Nat → Nat
  | none, d => d
  | some 0, d => d
  | some (n + 1), _ => n + 1

/-- JS truthiness of a nullable string (`null` and `""` are falsy). -/
def strTruthy : Option String → Bool
  | none => false
  | some s => !(s == "")

/-- JS truthiness of a nullable int (`null` and `0` are falsy). -/
def intTruthy : Option Int → Bool
  | none => false
  | some i => !(i == 0)

/-- JS truthiness of a nullable boolean. -/
def boolTruthy : Option Bool → Bool
  | none => false
  | some b => b

/-! ### DiscoveryService -/

/-- Rounding `Math.round(d * 10) / 10` — round to one decimal place
(`Math.round x = ⌊x + 1/2⌋`). -/
def round1 (d : ℚ) : ℚ := (⌊d * 10 + 1 / 2⌋ : ℤ) / 10

/-- The candidate filter applied by `getNearbyProfiles` (distance, gender, age
and same-city predicates), with `dist` abstracting `haversineDistance`. -/
def passesFilter (dist : ℚ → ℚ → ℚ → ℚ → ℚ) (userLat userLng : Option ℚ)
    (radius : ℚ) (query : DiscoveryQueryInput) (p : Profile) : Bool :=
  if numFalsy p.locationLat || numFalsy p.locationLng then false
  else
    let distance := dist (userLat.getD 0) (userLng.getD 0) (p.locationLat.getD 0) (p.locationLng.getD 0)
    if radius < distance then false
    else if strTruthy query.genderPreference && !(p.gender == query.genderPreference) then false
    else if intTruthy query.minAge && (!(intTruthy p.age) || decide (p.age.getD 0 < query.minAge.getD 0)) then false
    else if intTruthy query.maxAge && (!(intTruthy p.age) || decide (query.maxAge.getD 0 < p.age.getD 0)) then false
    else if boolTruthy query.sameCity && !(numFalsy userLat) && !(numFalsy userLng) then
      if (10 : ℚ) < dist (userLat.getD 0) (userLng.getD 0) (p.locationLat.getD 0) (p.locationLng.getD 0) then false
      else true
    else true

/-- The per-candidate transformation of `getNearbyProfiles`: compute the
distance, round it to one decimal place for the `distance` field, and
materialize the shared hobbies. -/
def transformProfile (dist : ℚ → ℚ → ℚ → ℚ → ℚ) (userLat userLng : Option ℚ)
    (userHobbyIds : List String) (profileHobbies : List ProfileHobby)
    (p : Profile) : DiscoveryProfile :=
  let distance := dist (userLat.getD 0) (userLng.getD 0) (p.locationLat.getD 0) (p.locationLng.getD 0)
  let sharedHobbies :=
    ((profileHobbies.filter (fun ph => ph.profileId == p.id)).filter
        (fun ph => userHobbyIds.contains ph.hobbyId)).map (fun ph => ph.hobby)
  { id := p.id, userId := p.userId, displayName := p.displayName, age := p.age,
    gender := p.gender, pronouns := p.pronouns, bio := p.bio, status := p.status,
    locationLat := p.locationLat, locationLng := p.locationLng,
    distance := some (round1 distance), sharedHobbies := sharedHobbies,
    photos := p.photos }

/-- The JS sort comparator passed to `.sort(...)`: primary sort by the (already
rounded) `distance` field, secondary by descending shared-hobby count, with
null distances last. -/
def discCmp (a b : DiscoveryProfile) : ℚ :=
  match a.distance, b.distance with
  | none, none => 0
  | none, some _ => 1
  | some _, none => -1
  | some da, some dbq =>
    let distanceDiff := da - dbq
    if distanceDiff == 0 then (b.sharedHobbies.length : ℚ) - (a.sharedHobbies.length : ℚ)
    else distanceDiff

/-- The order realized by `Array.prototype.sort` with `discCmp`: `a` may come
before `b` exactly when the comparator is nonpositive. -/
def DiscLE (a b : DiscoveryProfile) : Prop := discCmp a b ≤ 0

instance : DecidableRel DiscLE :=
  fun a b => inferInstanceAs (Decidable (discCmp a b ≤ 0))

/-- The limit actually applied: `Math.min(query.limit || 20, 50)`. -/
def effLimit (query : DiscoveryQueryInput) : Nat := min (jsOrNat query.limit 20) 50

/-- The filtered, transformed and sorted candidate list built by
`getNearbyProfiles` before pagination, for a requester profile that passed the
location guard. -/
def transformedProfiles (dist : ℚ → ℚ → ℚ → ℚ → ℚ) (db : DiscoveryDB)
    (userId : String) (query : DiscoveryQueryInput) (userProfile : Profile) :
    List DiscoveryProfile :=
  let radius := jsOrNum query.radius (jsOrNum userProfile.radiusPref 25)
  let swipedUserIds := (db.swipes.filter (fun s => s.actorId == userId)).map (fun s => s.targetId)
  -- The `where` object of the candidate query (discovery.service.ts lines
  -- 98-104) spells the key `userId` twice: `userId: { not: userId }` on line
  -- 99 and `userId: { notIn: Array.from(swipedUserIds) }` on line 103.  A
  -- JavaScript object literal keeps only the last occurrence of a duplicate
  -- key, so at runtime the self-exclusion clause of line 99 is discarded and
  -- only the `notIn` clause reaches Prisma; the filter below reflects that.
  let candidates := db.profiles.filter (fun p =>
    p.status == some "active" &&
    !(p.locationLat == none) && !(p.locationLng == none) &&
    !(swipedUserIds.contains p.userId))
  let filteredCandidates := candidates.filter
    (passesFilter dist userProfile.locationLat userProfile.locationLng radius query)
  let userHobbyIds :=
    (db.profileHobbies.filter (fun ph => ph.profileId == userProfile.id)).map (fun ph => ph.hobbyId)
  List.insertionSort DiscLE
    (filteredCandidates.map
      (transformProfile dist userProfile.locationLat userProfile.locationLng
        userHobbyIds db.profileHobbies))

/-- Embedding of `DiscoveryService.getNearbyProfiles`, with `dist` abstracting the
float-valued `haversineDistance`. -/
def getNearbyProfiles (dist : ℚ → ℚ → ℚ → ℚ → ℚ) (db : DiscoveryDB)
    (userId : String) (query : DiscoveryQueryInput) :
    Except DiscoveryErr DiscoveryResult :=
  match db.profiles.find? (fun p => p.userId == userId) with
  | none => .error .locationRequired
  | some userProfile =>
    if numFalsy userProfile.locationLat || numFalsy userProfile.locationLng then
      .error .locationRequired
    else
      let offset := jsOrNat query.offset 0
      let limit := effLimit query
      let transformed := transformedProfiles dist db userId query userProfile
      .ok { profiles := (transformed.drop offset).take limit,
            hasMore := decide (offset + limit < transformed.length),
            total := transformed.length }

/-- The full (pre-pagination) feed: what `getNearbyProfiles` slices pages from,
or `[]` when the requester fails the location guard. -/
def fullFeed (dist : ℚ → ℚ → ℚ → ℚ → ℚ) (db : DiscoveryDB) (userId : String)
    (query : DiscoveryQueryInput) : List DiscoveryProfile :=
  match db.profiles.find? (fun p => p.userId == userId) with
  | none => []
  | some userProfile =>
    if numFalsy userProfile.locationLat || numFalsy userProfile.locationLng then []
    else transformedProfiles dist db userId query userProfile

/-- Re-issue a query with an explicit `offset`. -/
def setOffset (query : DiscoveryQueryInput) (o : Nat) : DiscoveryQueryInput :=
  { query with offset := some o }

/-- Page through the feed: request the page at `offset`, then step `offset` by
the applied limit while `hasMore` holds.  `fuel` bounds the recursion. -/
def collectPages (dist : ℚ → ℚ → ℚ → ℚ → ℚ) (db : DiscoveryDB) (userId : String)
    (query : DiscoveryQueryInput) : Nat → Nat → List DiscoveryProfile
  | _, 0 => []
  | o, fuel + 1 =>
    match getNearbyProfiles dist db userId (setOffset query o) with
    | .error _ => []
    | .ok res =>
      res.profiles ++ (if res.hasMore then collectPages dist db userId query (o + effLimit query) fuel else [])

/-! ### The haversine distance, over ℝ -/

/-- Embedding of `DiscoveryService.toRadians`. -/
noncomputable def toRadians (degrees : ℝ) : ℝ := degrees * (Real.pi / 180)

/-- JS `Math.atan2` (the IEEE signed-zero distinctions are not representable
over `ℝ` and are not modelled). -/
noncomputable def atan2 (y x : ℝ) : ℝ :=
  if 0 < x then Real.arctan (y / x)
  else if x < 0 then
    (if 0 ≤ y then Real.arctan (y / x) + Real.pi else Real.arctan (y / x) - Real.pi)
  else if 0 < y then Real.pi / 2
  else if y < 0 then -(Real.pi / 2)
  else 0

/-- The intermediate `a` of `haversineDistance`:
`sin(dLat/2)·sin(dLat/2) + cos(lat1)·cos(lat2)·sin(dLng/2)·sin(dLng/2)`
with `dLat = toRadians (lat2 - lat1)` and `dLng = toRadians (lng2 - lng1)`. -/
noncomputable def havA (lat1 lng1 lat2 lng2 : ℝ) : ℝ :=
  Real.sin (toRadians (lat2 - lat1) / 2) * Real.sin (toRadians (lat2 - lat1) / 2) +
    Real.cos (toRadians lat1) * Real.cos (toRadians lat2) *
      (Real.sin (toRadians (lng2 - lng1) / 2) * Real.sin (toRadians (lng2 - lng1) / 2))

/-- Embedding of `DiscoveryService.haversineDistance`: `R * c` with `R = 3959` miles and
`c = 2 * atan2 (√a) (√(1 - a))`. -/
noncomputable def haversineDistance (lat1 lng1 lat2 lng2 : ℝ) : ℝ :=
  3959 * (2 * atan2 (Real.sqrt (havA lat1 lng1 lat2 lng2)) (Real.sqrt (1 - havA lat1 lng1 lat2 lng2)))

/-! ### Concrete fixtures used by the witnesses and counterexamples -/

/-- A query with every field absent. -/
def emptyQuery : DiscoveryQueryInput := ⟨none, none, none, none, none, none, none⟩

/-- A distance function that always returns 5 miles. -/
def distConst : ℚ → ℚ → ℚ → ℚ → ℚ := fun _ _ _ _ => 5

/-- The value 4.96 miles, as a kernel-reducible normalized rational (124/25). -/
def qLow : ℚ := ⟨124, 25, by decide, by decide⟩

/-- The value 5.04 miles, as a kernel-reducible normalized rational (126/25). -/
def qHigh : ℚ := ⟨126, 25, by decide, by decide⟩

/-- A distance function keyed on the candidate's latitude: 4.96 miles for
latitude 1, 5.04 miles for latitude 2 (both round to 5.0). -/
def distTenths : ℚ → ℚ → ℚ → ℚ → ℚ := fun _ _ lat2 _ =>
  if lat2 == 1 then qLow else if lat2 == 2 then qHigh else 0

/-- Requester profile used by the discovery fixtures.  Its status is
`inactive` so that, with the self-exclusion clause lost to the duplicated
`userId` key (see C1), the requester still stays out of their own feed here
through the surviving `status: 'active'` condition; the location guard on the
requester does not read the status. -/
def reqProfile : Profile :=
  ⟨"pu", "u", none, none, none, none, none, some "inactive", some 1, some 1, none, []⟩

/-- An active candidate with coordinates. -/
def candProfile : Profile :=
  ⟨"pc", "c", none, none, none, none, none, some "active", some 2, some 2, none, []⟩

/-- An active candidate the requester has already swiped on. -/
def swipedProfile : Profile :=
  ⟨"pz", "z", none, none, none, none, none, some "active", some 2, some 3, none, []⟩

/-- Discovery store: requester `u`, fresh candidate `c`, already-swiped `z`. -/
def discDB : DiscoveryDB :=
  ⟨[reqProfile, candProfile, swipedProfile], [], [⟨"s0", "u", "z", .like, 0⟩]⟩

/-- A hobby shared by the requester and candidate `y` of the sorting fixture. -/
def hobbyChess : Hobby := ⟨"h1", "chess", none, none⟩

/-- Sorting fixture requester, at latitude 3; inactive for the same reason as
`reqProfile`, keeping the sorting fixture to the two candidates `x` and `y`. -/
def reqSort : Profile :=
  ⟨"pu", "u", none, none, none, none, none, some "inactive", some 3, some 3, none, []⟩

/-- Sorting fixture candidate `x`: exact distance 4.96, no shared hobbies. -/
def profX : Profile :=
  ⟨"px", "x", none, none, none, none, none, some "active", some 1, some 1, none, []⟩

/-- Sorting fixture candidate `y`: exact distance 5.04, one shared hobby. -/
def profY : Profile :=
  ⟨"py", "y", none, none, none, none, none, some "active", some 2, some 1, none, []⟩

/-- Sorting fixture store. -/
def sortDB : DiscoveryDB :=
  ⟨[reqSort, profX, profY], [⟨"py", "h1", hobbyChess⟩, ⟨"pu", "h1", hobbyChess⟩], []⟩

/-- The discovery output row for `candProfile`: rounded distance 5.0. -/
def cOut : DiscoveryProfile :=
  ⟨"pc", "c", none, none, none, none, none, some "active", some 2, some 2, some 5, [], []⟩

/-- The discovery output row for `profX`: rounded distance 5.0, no shared
hobbies. -/
def xOut : DiscoveryProfile :=
  ⟨"px", "x", none, none, none, none, none, some "active", some 1, some 1, some 5, [], []⟩

/-- The discovery output row for `profY`: rounded distance 5.0, one shared
hobby. -/
def yOut : DiscoveryProfile :=
  ⟨"py", "y", none, none, none, none, none, some "active", some 2, some 1, some 5,
   [hobbyChess], []⟩

/-- A requester stored at latitude 0 (on the equator), longitude 10. -/
def equatorProfile : Profile :=
  ⟨"pe", "e", none, none, none, none, none, some "active", some 0, some 10, none, []⟩

/-- Store for the latitude-0 requester. -/
def equatorDB : DiscoveryDB := ⟨[equatorProfile], [], []⟩

/-- An active requester with stored coordinates, used to demonstrate the lost
self-exclusion (see C1); they have already swiped on `z`. -/
def selfProfile : Profile :=
  ⟨"pw", "w", none, none, none, none, none, some "active", some 1, some 1, none, []⟩

/-- Store for the self-inclusion demonstration: the active, located requester
`w` and the active, located, already-swiped `z`. -/
def selfDB : DiscoveryDB :=
  ⟨[selfProfile, swipedProfile], [], [⟨"s1", "w", "z", .like, 0⟩]⟩

/-- The discovery output row the feed produces for the requester `w`'s own
stored profile: rounded distance 5.0. -/
def wOut : DiscoveryProfile :=
  ⟨"pw", "w", none, none, none, none, none, some "active", some 1, some 1, some 5, [], []⟩

/-- A store with one match between `alice` and `bob`, for the message claims. -/
def msgDB : SwipeDB := ⟨["alice", "bob"], [], [⟨"m1", "alice", "bob", 0, none⟩], []⟩

/-- The store `msgDB` after `alice` posts the trimmed message `hi there` at instant 5. -/
def msgDBAfter : SwipeDB :=
  ⟨["alice", "bob"], [], [⟨"m1", "alice", "bob", 0, some 5⟩],
   [⟨"msg1", "m1", "alice", "hi there", 5⟩]⟩

/-- A store in which user `aa` has already made 100 swipes today. -/
def quotaFullDB : SwipeDB :=
  ⟨["aa", "bb"], List.replicate 100 ⟨"s", "aa", "cc", .like, 0⟩, [], []⟩

/-- The 99 distinct filler target ids. -/
def quotaTargets : List String :=
  (List.range 99).map (fun i => String.mk ['t', Char.ofNat (48 + i / 10), Char.ofNat (48 + i % 10)])

/-- A day of swipes by `aa`: first on `bb`, then on the 99 filler targets,
exhausting the daily quota. -/
def quotaEvents : List SwipeEvent :=
  ⟨"aa", "bb", .pass, 0, 0, "s", "m"⟩ ::
    quotaTargets.map (fun t => ⟨"aa", t, .pass, 0, 0, "s", "m"⟩)

/-- The store reached after `quotaEvents` from a fresh store. -/
def quotaDB : SwipeDB := runSwipes (initDB ("aa" :: "bb" :: quotaTargets)) quotaEvents

/-- The store after `alice` likes `bob` starting from a fresh store. -/
def mutualDB1 : SwipeDB :=
  ⟨["alice", "bob"], [⟨"s1", "alice", "bob", .like, 0⟩], [], []⟩

/-- The store after `bob` likes `alice` back: the mutual Match exists. -/
def mutualDB2 : SwipeDB :=
  ⟨["alice", "bob"],
   [⟨"s1", "alice", "bob", .like, 0⟩, ⟨"s2", "bob", "alice", .like, 0⟩],
   [⟨"m2", "alice", "bob", 7, some 7⟩], []⟩

/-- Decidable equality of call results. -/
instance {ε α : Type} [DecidableEq ε] [DecidableEq α] : DecidableEq (Except ε α) := fun a b =>
  match a, b with
  | .ok x, .ok y => if h : x = y then .isTrue (by rw [h]) else .isFalse (by simp [h])
  | .error x, .error y => if h : x = y then .isTrue (by rw [h]) else .isFalse (by simp [h])
  | .ok _, .error _ => .isFalse (by simp)
  | .error _, .ok _ => .isFalse (by simp)

/-! ## Helper lemmas: the lexicographic id order -/

theorem lexLtChars_irrefl (l : List Char) : lexLtChars l l = false := by
  induction l with
  | nil => rfl
  | cons a as ih => simp [lexLtChars, ih]

theorem lexLt_irrefl (a : String) : lexLt a a = false := lexLtChars_irrefl a.data

theorem lexLtChars_total (l₁ l₂ : List Char) (h : l₁ ≠ l₂) :
    lexLtChars l₁ l₂ = true ∨ lexLtChars l₂ l₁ = true := by
  induction l₁ generalizing l₂ with
  | nil =>
    cases l₂ with
    | nil => exact absurd rfl h
    | cons b bs => left; rfl
  | cons a as ih =>
    cases l₂ with
    | nil => right; rfl
    | cons b bs =>
      by_cases hab : a = b
      · subst hab
        have hne : as ≠ bs := fun hcontra => h (by rw [hcontra])
        rcases ih bs hne with h1 | h1
        · left; simp [lexLtChars, h1]
        · right; simp [lexLtChars, h1]
      · rcases lt_or_gt_of_ne hab with hlt | hgt
        · left; simp [lexLtChars, hlt]
        · right; simp [lexLtChars, hgt, not_lt_of_gt hgt]

theorem lexLt_total (a b : String) (h : a ≠ b) :
    lexLt a b = true ∨ lexLt b a = true := by
  refine lexLtChars_total a.data b.data (fun hd => h ?_)
  cases a; cases b; exact congrArg String.mk hd

theorem lexLtChars_asymm (l₁ l₂ : List Char) (h : lexLtChars l₁ l₂ = true) :
    lexLtChars l₂ l₁ = false := by
  induction l₁ generalizing l₂ with
  | nil =>
    cases l₂ with
    | nil => simp [lexLtChars] at h
    | cons b bs => rfl
  | cons a as ih =>
    cases l₂ with
    | nil => simp [lexLtChars] at h
    | cons b bs =>
      by_cases hab : a < b
      · simp [lexLtChars, hab, not_lt_of_gt hab]
      · by_cases hba : b < a
        · simp [lexLtChars, hab, hba] at h
        · have hab' : a = b := le_antisymm (not_lt.mp hba) (not_lt.mp hab)
          subst hab'
          simp only [lexLtChars, lt_irrefl, if_false] at h ⊢
          exact ih _ h

theorem lexLt_asymm (a b : String) (h : lexLt a b = true) : lexLt b a = false :=
  lexLtChars_asymm a.data b.data h

/-! ## Helper lemmas: recordSwipe -/

/-- Characterization of a successful `recordSwipe` call: the guards it passed,
the row it appended, and (on the right disjunct) the Match it created. -/
theorem recordSwipe_ok_spec {db : SwipeDB} {a t : String} {dir : Direction}
    {today now : Nat} {sid mid : String} {db' : SwipeDB} {r : SwipeResult}
    (h : recordSwipe db a t dir today now sid mid = .ok (db', r)) :
    a ≠ t ∧
    db.users.contains t = true ∧
    getSwipeCountToday db a today < DAILY_SWIPE_LIMIT ∧
    db.swipes.find? (fun s => s.actorId == a && s.targetId == t) = none ∧
    db'.users = db.users ∧
    db'.swipes = db.swipes ++ [(⟨sid, a, t, dir, today⟩ : SwipeRow)] ∧
    db'.messages = db.messages ∧
    r.success = true ∧ r.swipeId = sid ∧
    ((r.matchCreated = false ∧ db'.matchRows = db.matchRows ∧
       (dir = .pass ∨
        (db.swipes ++ [(⟨sid, a, t, dir, today⟩ : SwipeRow)]).find?
            (fun s => s.actorId == t && s.targetId == a) = none ∨
        (∃ rv, (db.swipes ++ [(⟨sid, a, t, dir, today⟩ : SwipeRow)]).find?
            (fun s => s.actorId == t && s.targetId == a) = some rv ∧ rv.direction ≠ .like) ∨
        (db.matchRows.find? (fun m =>
            m.user1Id == (if lexLt a t then a else t) &&
            m.user2Id == (if lexLt a t then t else a))).isSome = true)) ∨
     (r.matchCreated = true ∧ dir = .like ∧
       db'.matchRows = db.matchRows ++
         [(⟨mid, if lexLt a t then a else t, if lexLt a t then t else a, now, some now⟩ : MatchRow)] ∧
       (∃ rv, (db.swipes ++ [(⟨sid, a, t, dir, today⟩ : SwipeRow)]).find?
            (fun s => s.actorId == t && s.targetId == a) = some rv ∧ rv.direction = .like) ∧
       db.matchRows.find? (fun m =>
          m.user1Id == (if lexLt a t then a else t) &&
          m.user2Id == (if lexLt a t then t else a)) = none)) := by
  have c1 : ¬ ((a == t) = true) := by
    intro hc
    rw [recordSwipe, if_pos hc] at h
    exact Except.noConfusion h
  have c2 : ¬ ((!db.users.contains t) = true) := by
    intro hc
    rw [recordSwipe, if_neg c1, if_pos hc] at h
    exact Except.noConfusion h
  have c3 : ¬ (DAILY_SWIPE_LIMIT ≤ getSwipeCountToday db a today) := by
    intro hc
    rw [recordSwipe, if_neg c1, if_neg c2, if_pos hc] at h
    exact Except.noConfusion h
  have c4 : ¬ ((db.swipes.find? (fun s => s.actorId == a && s.targetId == t)).isSome = true) := by
    intro hc
    rw [recordSwipe, if_neg c1, if_neg c2, if_neg c3, if_pos hc] at h
    exact Except.noConfusion h
  have hne : a ≠ t := by simpa using c1
  have hcont : db.users.contains t = true := by simpa using c2
  have hquota : getSwipeCountToday db a today < DAILY_SWIPE_LIMIT := by omega
  have hdup : db.swipes.find? (fun s => s.actorId == a && s.targetId == t) = none :=
    Option.not_isSome_iff_eq_none.mp (by simpa using c4)
  rw [recordSwipe, if_neg c1, if_neg c2, if_neg c3, if_neg c4] at h
  cases dir with
  | pass =>
    dsimp only at h
    simp only [Except.ok.injEq, Prod.mk.injEq] at h
    obtain ⟨hdb, hr⟩ := h
    subst hdb; subst hr
    exact ⟨hne, hcont, hquota, hdup, rfl, rfl, rfl, rfl, rfl,
      Or.inl ⟨rfl, rfl, Or.inl rfl⟩⟩
  | like =>
    dsimp only at h
    cases hrev : (db.swipes ++ [(⟨sid, a, t, .like, today⟩ : SwipeRow)]).find?
        (fun s => s.actorId == t && s.targetId == a) with
    | none =>
      rw [hrev] at h
      dsimp only at h
      simp only [Except.ok.injEq, Prod.mk.injEq] at h
      obtain ⟨hdb, hr⟩ := h
      subst hdb; subst hr
      exact ⟨hne, hcont, hquota, hdup, rfl, rfl, rfl, rfl, rfl,
        Or.inl ⟨rfl, rfl, Or.inr (Or.inl rfl)⟩⟩
    | some rv =>
      rw [hrev] at h
      dsimp only at h
      cases hlike : rv.direction == Direction.like with
      | false =>
        rw [if_neg (by simp [hlike])] at h
        simp only [Except.ok.injEq, Prod.mk.injEq] at h
        obtain ⟨hdb, hr⟩ := h
        subst hdb; subst hr
        exact ⟨hne, hcont, hquota, hdup, rfl, rfl, rfl, rfl, rfl,
          Or.inl ⟨rfl, rfl, Or.inr (Or.inr (Or.inl ⟨rv, rfl, by simpa using hlike⟩))⟩⟩
      | true =>
        rw [if_pos hlike] at h
        cases hmatch : (db.matchRows.find? (fun m =>
            m.user1Id == (if lexLt a t then a else t) &&
            m.user2Id == (if lexLt a t then t else a))).isSome with
        | true =>
          rw [if_pos hmatch] at h
          simp only [Except.ok.injEq, Prod.mk.injEq] at h
          obtain ⟨hdb, hr⟩ := h
          subst hdb; subst hr
          exact ⟨hne, hcont, hquota, hdup, rfl, rfl, rfl, rfl, rfl,
            Or.inl ⟨rfl, rfl, Or.inr (Or.inr (Or.inr rfl))⟩⟩
        | false =>
          rw [if_neg (by simp [hmatch])] at h
          simp only [Except.ok.injEq, Prod.mk.injEq] at h
          obtain ⟨hdb, hr⟩ := h
          subst hdb; subst hr
          exact ⟨hne, hcont, hquota, hdup, rfl, rfl, rfl, rfl, rfl,
            Or.inr ⟨rfl, rfl, rfl, ⟨rv, rfl, by simpa using hlike⟩,
              Option.not_isSome_iff_eq_none.mp (by simp [hmatch])⟩⟩

/-- Quota errors depend only on the guards before the insert. -/
theorem recordSwipe_quota_error {db : SwipeDB} {a t : String} {dir : Direction}
    {today now : Nat} {sid mid : String}
    (hne : a ≠ t) (hmem : db.users.contains t = true)
    (hq : DAILY_SWIPE_LIMIT ≤ getSwipeCountToday db a today) :
    recordSwipe db a t dir today now sid mid = .error .quotaExceeded := by
  rw [recordSwipe, if_neg (by simp [hne]), if_neg (by simpa using hmem), if_pos hq]

/-- Duplicate errors for an already-decided ordered pair with quota headroom. -/
theorem recordSwipe_duplicate_error {db : SwipeDB} {a t : String} {dir : Direction}
    {today now : Nat} {sid mid : String}
    (hne : a ≠ t) (hmem : db.users.contains t = true)
    (hq : getSwipeCountToday db a today < DAILY_SWIPE_LIMIT)
    (hdup : (db.swipes.find? (fun s => s.actorId == a && s.targetId == t)).isSome = true) :
    recordSwipe db a t dir today now sid mid = .error .duplicateSwipe := by
  rw [recordSwipe, if_neg (by simp [hne]), if_neg (by simpa using hmem),
    if_neg (Nat.not_le_of_lt hq), if_pos hdup]

/-! ## Helper lemmas: counting -/

theorem getSwipeCountToday_eq_of_swipes {db db' : SwipeDB} {row : SwipeRow}
    (h : db'.swipes = db.swipes ++ [row]) (u : String) (d : Nat) :
    getSwipeCountToday db' u d =
      getSwipeCountToday db u d + (if row.actorId == u && row.swipeDate == d then 1 else 0) := by
  rw [getSwipeCountToday, h, List.filter_append, List.length_append, getSwipeCountToday]
  congr 1
  cases hc : (row.actorId == u && row.swipeDate == d) <;> simp [List.filter_cons, hc]

theorem pairSwipeCount_eq_of_swipes {db db' : SwipeDB} {row : SwipeRow}
    (h : db'.swipes = db.swipes ++ [row]) (a b : String) :
    pairSwipeCount db' a b =
      pairSwipeCount db a b + (if row.actorId == a && row.targetId == b then 1 else 0) := by
  rw [pairSwipeCount, h, List.filter_append, List.length_append, pairSwipeCount]
  congr 1
  cases hc : (row.actorId == a && row.targetId == b) <;> simp [List.filter_cons, hc]

theorem pairMatchCount_eq_of_matchRows {db db' : SwipeDB} (h : db'.matchRows = db.matchRows)
    (a b : String) : pairMatchCount db' a b = pairMatchCount db a b := by
  rw [pairMatchCount, h, pairMatchCount]

theorem pairMatchCount_eq_of_append {db db' : SwipeDB} {m : MatchRow}
    (h : db'.matchRows = db.matchRows ++ [m]) (a b : String) :
    pairMatchCount db' a b = pairMatchCount db a b +
      (if (m.user1Id == a && m.user2Id == b) || (m.user1Id == b && m.user2Id == a) then 1 else 0) := by
  rw [pairMatchCount, h, List.filter_append, List.length_append, pairMatchCount]
  congr 1
  cases hc : ((m.user1Id == a && m.user2Id == b) || (m.user1Id == b && m.user2Id == a)) <;>
    simp [List.filter_cons, hc]

theorem exists_pair_match_of_count {db : SwipeDB} {a b : String}
    (h : 1 ≤ pairMatchCount db a b) :
    ∃ m ∈ db.matchRows,
      ((m.user1Id == a && m.user2Id == b) || (m.user1Id == b && m.user2Id == a)) = true := by
  rw [pairMatchCount] at h
  obtain ⟨m, hm⟩ := List.exists_mem_of_ne_nil _ (List.length_pos.mp h)
  exact ⟨m, (List.mem_filter.mp hm).1, (List.mem_filter.mp hm).2⟩

/-- If there is no SwipeAction from `a` to `b`, there is no Match for `{a, b}`
in a well-formed store. -/
theorem pairMatchCount_eq_zero_of_no_swipe {db : SwipeDB} {a b : String}
    (hwf : MatchesWF db)
    (hdup : db.swipes.find? (fun s => s.actorId == a && s.targetId == b) = none) :
    pairMatchCount db a b = 0 := by
  rw [pairMatchCount, List.length_eq_zero]
  refine List.filter_eq_nil_iff.mpr (fun m hm hpred => ?_)
  obtain ⟨hlex, ⟨s1, hs1, hp1a, hp1b⟩, ⟨s2, hs2, hp2a, hp2b⟩⟩ := hwf m hm
  simp only [Bool.or_eq_true, Bool.and_eq_true, beq_iff_eq] at hpred
  have hnone := List.find?_eq_none.mp hdup
  rcases hpred with ⟨h1, h2⟩ | ⟨h1, h2⟩
  · exact hnone s1 hs1 (by simp [hp1a, hp1b, h1, h2])
  · exact hnone s2 hs2 (by simp [hp2a, hp2b, h1, h2])

theorem find?_match_eq_none_of_count_zero {db : SwipeDB} {a b u1 u2 : String}
    (hu : (u1 = a ∧ u2 = b) ∨ (u1 = b ∧ u2 = a))
    (h : pairMatchCount db a b = 0) :
    db.matchRows.find? (fun m => m.user1Id == u1 && m.user2Id == u2) = none := by
  rw [List.find?_eq_none]
  intro m hm hpred
  have hmem : m ∈ db.matchRows.filter (fun m =>
      (m.user1Id == a && m.user2Id == b) || (m.user1Id == b && m.user2Id == a)) := by
    rw [List.mem_filter]
    refine ⟨hm, ?_⟩
    simp only [Bool.and_eq_true, beq_iff_eq] at hpred
    rcases hu with ⟨h1, h2⟩ | ⟨h1, h2⟩ <;> subst h1 <;> subst h2 <;>
      simp [hpred.1, hpred.2]
  rw [pairMatchCount, List.length_eq_zero] at h
  rw [h] at hmem
  exact absurd hmem (List.not_mem_nil m)

/-- Two lexicographically normalized orderings of the same unordered pair agree. -/
theorem normalized_pair_eq {a b u1 u2 v1 v2 : String}
    (hu : (u1 = a ∧ u2 = b) ∨ (u1 = b ∧ u2 = a)) (hlexu : lexLt u1 u2 = true)
    (hv : (v1 = a ∧ v2 = b) ∨ (v1 = b ∧ v2 = a)) (hlexv : lexLt v1 v2 = true) :
    u1 = v1 ∧ u2 = v2 := by
  rcases hu with ⟨h1, h2⟩ | ⟨h1, h2⟩ <;> rcases hv with ⟨h3, h4⟩ | ⟨h3, h4⟩ <;> subst_vars
  · exact ⟨rfl, rfl⟩
  · exact absurd hlexv (by simp [lexLt_asymm _ _ hlexu])
  · exact absurd hlexv (by simp [lexLt_asymm _ _ hlexu])
  · exact ⟨rfl, rfl⟩

/-! ## Helper lemmas: step preservation -/

theorem stepSwipe_quota_le {db : SwipeDB} (e : SwipeEvent) (u : String) (d : Nat)
    (h : getSwipeCountToday db u d ≤ DAILY_SWIPE_LIMIT) :
    getSwipeCountToday (stepSwipe db e) u d ≤ DAILY_SWIPE_LIMIT := by
  rw [stepSwipe]
  cases hcall : recordSwipe db e.actorId e.targetId e.direction e.today e.now
      e.newSwipeId e.newMatchId with
  | error _ => exact h
  | ok p =>
    obtain ⟨db', r⟩ := p
    obtain ⟨-, -, hquota, -, -, hswipes, -, -, -, -⟩ := recordSwipe_ok_spec hcall
    rw [getSwipeCountToday_eq_of_swipes hswipes]
    split
    · rename_i hc
      simp only [Bool.and_eq_true, beq_iff_eq] at hc
      obtain ⟨h1, h2⟩ := hc
      subst h1; subst h2
      omega
    · omega

theorem runSwipes_quota_le (es : List SwipeEvent) (db : SwipeDB)
    (h : ∀ u d, getSwipeCountToday db u d ≤ DAILY_SWIPE_LIMIT) :
    ∀ u d, getSwipeCountToday (runSwipes db es) u d ≤ DAILY_SWIPE_LIMIT := by
  induction es generalizing db with
  | nil => exact h
  | cons e es ih => exact ih _ (fun u d => stepSwipe_quota_le e u d (h u d))

theorem stepSwipe_pairSwipeCount_le {db : SwipeDB} (e : SwipeEvent) (a b : String)
    (h : pairSwipeCount db a b ≤ 1) :
    pairSwipeCount (stepSwipe db e) a b ≤ 1 := by
  rw [stepSwipe]
  cases hcall : recordSwipe db e.actorId e.targetId e.direction e.today e.now
      e.newSwipeId e.newMatchId with
  | error _ => exact h
  | ok p =>
    obtain ⟨db', r⟩ := p
    obtain ⟨-, -, -, hdup, -, hswipes, -, -, -, -⟩ := recordSwipe_ok_spec hcall
    rw [pairSwipeCount_eq_of_swipes hswipes]
    split
    · rename_i hc
      simp only [Bool.and_eq_true, beq_iff_eq] at hc
      obtain ⟨h1, h2⟩ := hc
      subst h1; subst h2
      have hzero : pairSwipeCount db e.actorId e.targetId = 0 := by
        rw [pairSwipeCount, List.length_eq_zero]
        exact List.filter_eq_nil_iff.mpr (List.find?_eq_none.mp hdup)
      omega
    · omega

theorem runSwipes_pairSwipeCount_le (es : List SwipeEvent) (db : SwipeDB) (a b : String)
    (h : pairSwipeCount db a b ≤ 1) :
    pairSwipeCount (runSwipes db es) a b ≤ 1 := by
  induction es generalizing db with
  | nil => exact h
  | cons e es ih => exact ih _ (stepSwipe_pairSwipeCount_le e a b h)

/-- A successful `recordSwipe` preserves the Match invariant. -/
theorem matchesWF_recordSwipe_ok {db db' : SwipeDB} {a t : String} {dir : Direction}
    {today now : Nat} {sid mid : String} {r : SwipeResult}
    (hwf : MatchesWF db)
    (hcall : recordSwipe db a t dir today now sid mid = .ok (db', r)) :
    MatchesWF db' := by
  obtain ⟨hne, -, -, -, -, hswipes, -, -, -, hdisj⟩ := recordSwipe_ok_spec hcall
  intro m hm
  have hkeep : ∀ m₀ ∈ db.matchRows, lexLt m₀.user1Id m₀.user2Id = true ∧
      (∃ s ∈ db'.swipes, s.actorId = m₀.user1Id ∧ s.targetId = m₀.user2Id) ∧
      (∃ s ∈ db'.swipes, s.actorId = m₀.user2Id ∧ s.targetId = m₀.user1Id) := by
    intro m₀ hm₀
    obtain ⟨hlex, ⟨s1, hs1, hp1⟩, ⟨s2, hs2, hp2⟩⟩ := hwf m₀ hm₀
    exact ⟨hlex, ⟨s1, by rw [hswipes]; exact List.mem_append_left _ hs1, hp1⟩,
           ⟨s2, by rw [hswipes]; exact List.mem_append_left _ hs2, hp2⟩⟩
  rcases hdisj with ⟨-, hmr, -⟩ | ⟨-, -, hmr, ⟨rv, hrv, -⟩, -⟩
  · exact hkeep m (hmr ▸ hm)
  · rw [hmr] at hm
    rcases List.mem_append.mp hm with hold | hnew
    · exact hkeep m hold
    · have hmeq : m = ⟨mid, if lexLt a t then a else t, if lexLt a t then t else a,
          now, some now⟩ := by simpa using hnew
      subst hmeq
      have hrvmem : rv ∈ db'.swipes := by
        rw [hswipes]; exact List.mem_of_find?_eq_some hrv
      have hrvpred := List.find?_some hrv
      simp only [Bool.and_eq_true, beq_iff_eq] at hrvpred
      have hrowmem : (⟨sid, a, t, dir, today⟩ : SwipeRow) ∈ db'.swipes := by
        rw [hswipes]; exact List.mem_append_right _ (List.mem_singleton.mpr rfl)
      by_cases hab : lexLt a t = true
      · refine ⟨by simp [hab], ?_, ?_⟩
        · exact ⟨⟨sid, a, t, dir, today⟩, hrowmem, by simp [hab]⟩
        · exact ⟨rv, hrvmem, by simp [hab, hrvpred.1, hrvpred.2]⟩
      · have hba : lexLt t a = true := by
          rcases lexLt_total a t hne with h1 | h1
          · exact absurd h1 hab
          · exact h1
        refine ⟨by simpa [hab] using hba, ?_, ?_⟩
        · exact ⟨rv, hrvmem, by simp [hab, hrvpred.1, hrvpred.2]⟩
        · exact ⟨⟨sid, a, t, dir, today⟩, hrowmem, by simp [hab]⟩

theorem matchesWF_stepSwipe {db : SwipeDB} (e : SwipeEvent) (hwf : MatchesWF db) :
    MatchesWF (stepSwipe db e) := by
  rw [stepSwipe]
  cases hcall : recordSwipe db e.actorId e.targetId e.direction e.today e.now
      e.newSwipeId e.newMatchId with
  | error _ => exact hwf
  | ok p =>
    obtain ⟨db', r⟩ := p
    exact matchesWF_recordSwipe_ok hwf hcall

/-- Once a Match for a pair exists in a well-formed store, no step changes the
number of Matches for that pair. -/
theorem stepSwipe_pairMatchCount_stable {db : SwipeDB} (e : SwipeEvent) (a b : String)
    (hwf : MatchesWF db) (hone : 1 ≤ pairMatchCount db a b) :
    pairMatchCount (stepSwipe db e) a b = pairMatchCount db a b := by
  rw [stepSwipe]
  cases hcall : recordSwipe db e.actorId e.targetId e.direction e.today e.now
      e.newSwipeId e.newMatchId with
  | error _ => rfl
  | ok p =>
    obtain ⟨db', r⟩ := p
    obtain ⟨hne, -, -, -, -, -, -, -, -, hdisj⟩ := recordSwipe_ok_spec hcall
    rcases hdisj with ⟨-, hmr, -⟩ | ⟨-, -, hmr, -, hfind⟩
    · exact pairMatchCount_eq_of_matchRows hmr a b
    · rw [pairMatchCount_eq_of_append hmr]
      obtain ⟨m0, hm0, hm0pred⟩ := exists_pair_match_of_count hone
      obtain ⟨hm0lex, -, -⟩ := hwf m0 hm0
      have hnewlex : lexLt (if lexLt e.actorId e.targetId then e.actorId else e.targetId)
          (if lexLt e.actorId e.targetId then e.targetId else e.actorId) = true := by
        by_cases hab : lexLt e.actorId e.targetId = true
        · simp [hab]
        · rcases lexLt_total e.actorId e.targetId hne with h1 | h1
          · exact absurd h1 hab
          · simpa [hab] using h1
      have hcfalse :
          (((if lexLt e.actorId e.targetId then e.actorId else e.targetId) == a &&
            (if lexLt e.actorId e.targetId then e.targetId else e.actorId) == b) ||
           ((if lexLt e.actorId e.targetId then e.actorId else e.targetId) == b &&
            (if lexLt e.actorId e.targetId then e.targetId else e.actorId) == a)) = false := by
        by_contra hcontra
        rw [Bool.not_eq_false] at hcontra
        simp only [Bool.or_eq_true, Bool.and_eq_true, beq_iff_eq] at hcontra hm0pred
        have hsame := @normalized_pair_eq a b m0.user1Id m0.user2Id _ _ hm0pred hm0lex hcontra hnewlex
        have hnon := List.find?_eq_none.mp hfind m0 hm0
        simp only [Bool.and_eq_true, beq_iff_eq, not_and] at hnon
        exact hnon hsame.1 hsame.2
      rw [if_neg (by simp [hcfalse])]
      omega

theorem runSwipes_pairMatchCount_stable (es : List SwipeEvent) (db : SwipeDB) (a b : String)
    (hwf : MatchesWF db) (hone : 1 ≤ pairMatchCount db a b) :
    pairMatchCount (runSwipes db es) a b = pairMatchCount db a b := by
  induction es generalizing db with
  | nil => rfl
  | cons e es ih =>
    rw [show runSwipes db (e :: es) = runSwipes (stepSwipe db e) es from rfl]
    rw [ih (stepSwipe db e) (matchesWF_stepSwipe e hwf)
      (by rw [stepSwipe_pairMatchCount_stable e a b hwf hone]; exact hone)]
    exact stepSwipe_pairMatchCount_stable e a b hwf hone

set_option maxRecDepth 8192

/-! ## Claim C2 -/

/-- C2: after any sequence of `recordSwipe` calls from a fresh store, no user's
today-count ever exceeds 100 (the `DAILY_SWIPE_LIMIT`, which equals 100); a
call whose actor already has a today-count of at least 100 fails with the
quota-exceeded error, whose message names the limit 100 and the reset at UTC
midnight, and creates no SwipeAction; hence the 101st action of a UTC day
always fails. -/
theorem swipe_daily_quota_invariant :
    (∀ (users : List String) (es : List SwipeEvent) (u : String) (d : Nat),
        getSwipeCountToday (runSwipes (initDB users) es) u d ≤ 100) ∧
    (∀ (db : SwipeDB) (a t : String) (dir : Direction) (today now : Nat) (sid mid : String),
        a ≠ t → db.users.contains t = true →
        100 ≤ getSwipeCountToday db a today →
        recordSwipe db a t dir today now sid mid = .error .quotaExceeded ∧
        stepSwipe db ⟨a, t, dir, today, now, sid, mid⟩ = db) ∧
    DAILY_SWIPE_LIMIT = 100 ∧
    errMessage .quotaExceeded =
      "Daily swipe limit of 100 reached. Limit resets at midnight UTC." := by
  refine ⟨?_, ?_, rfl, rfl⟩
  · intro users es u d
    exact runSwipes_quota_le es (initDB users)
      (fun u d => by simp [getSwipeCountToday, initDB]) u d
  · intro db a t dir today now sid mid hne hmem hq
    have herr := @recordSwipe_quota_error db a t dir today now sid mid hne hmem hq
    exact ⟨herr, by simp [stepSwipe, herr]⟩

/-- Witness for C2: a fresh one-swipe run respects the bound, and a store in
which `aa` already has 100 swipes today rejects the next call with the
quota-exceeded error. -/
theorem swipe_daily_quota_invariant_witness :
    getSwipeCountToday (runSwipes (initDB ["aa", "bb"])
        [⟨"aa", "bb", .like, 0, 0, "s1", "m1"⟩]) "aa" 0 ≤ 100 ∧
    recordSwipe quotaFullDB "aa" "bb" .pass 0 0 "s9" "m9" = .error .quotaExceeded := by
  constructor
  · exact swipe_daily_quota_invariant.1 ["aa", "bb"] [⟨"aa", "bb", .like, 0, 0, "s1", "m1"⟩] "aa" 0
  · exact (swipe_daily_quota_invariant.2.1 quotaFullDB "aa" "bb" .pass 0 0 "s9" "m9"
      (by decide) (by decide) (by decide)).1

/-! ## Claim C4 -/

/-- C4 (amended): once a SwipeAction for the ordered pair `(a, b)` exists,
every later `recordSwipe a b` call fails and leaves the store unchanged — with
the duplicate-action error whenever the actor still has daily-quota headroom,
and with the quota-exceeded error otherwise (the quota guard runs first) — and
at most one SwipeAction ever exists for any ordered pair. -/
theorem duplicate_swipe_always_fails
    (db : SwipeDB) (a b : String) (d2 : Direction) (today now : Nat) (sid mid : String)
    (hne : a ≠ b) (hmem : db.users.contains b = true)
    (hdup : (db.swipes.find? (fun s => s.actorId == a && s.targetId == b)).isSome = true) :
    (∃ e, recordSwipe db a b d2 today now sid mid = .error e ∧
        stepSwipe db ⟨a, b, d2, today, now, sid, mid⟩ = db) ∧
    (getSwipeCountToday db a today < DAILY_SWIPE_LIMIT →
        recordSwipe db a b d2 today now sid mid = .error .duplicateSwipe) ∧
    (DAILY_SWIPE_LIMIT ≤ getSwipeCountToday db a today →
        recordSwipe db a b d2 today now sid mid = .error .quotaExceeded) ∧
    (∀ (users : List String) (es : List SwipeEvent) (x y : String),
        pairSwipeCount (runSwipes (initDB users) es) x y ≤ 1) := by
  refine ⟨?_, ?_, ?_, ?_⟩
  · by_cases hq : getSwipeCountToday db a today < DAILY_SWIPE_LIMIT
    · have herr := @recordSwipe_duplicate_error db a b d2 today now sid mid hne hmem hq hdup
      exact ⟨.duplicateSwipe, herr, by simp [stepSwipe, herr]⟩
    · have herr := @recordSwipe_quota_error db a b d2 today now sid mid hne hmem
        (Nat.le_of_not_lt hq)
      exact ⟨.quotaExceeded, herr, by simp [stepSwipe, herr]⟩
  · intro hq
    exact recordSwipe_duplicate_error hne hmem hq hdup
  · intro hq
    exact recordSwipe_quota_error hne hmem hq
  · intro users es x y
    exact runSwipes_pairSwipeCount_le es (initDB users) x y (by simp [pairSwipeCount, initDB])

/-- Counterexample for C4 as stated: after `aa` swiped on `bb` and then filled
the rest of the daily quota, the repeated `aa → bb` swipe fails with the
quota-exceeded error, not the duplicate-action error. -/
theorem duplicate_swipe_error_cex :
    pairSwipeCount quotaDB "aa" "bb" = 1 ∧
    recordSwipe quotaDB "aa" "bb" .pass 0 0 "s9" "m9" = .error .quotaExceeded ∧
    (Except.error .quotaExceeded : Except SwipeErr (SwipeDB × SwipeResult)) ≠
      .error .duplicateSwipe := by
  exact ⟨by decide, by decide, by decide⟩

/-- Witness for the amended C4: with quota headroom the repeat swipe fails with
the duplicate-action error and the store is unchanged. -/
theorem duplicate_swipe_always_fails_witness :
    recordSwipe mutualDB1 "alice" "bob" .pass 3 3 "s9" "m9" = .error .duplicateSwipe ∧
    pairSwipeCount (runSwipes (initDB ["alice", "bob"])
      [⟨"alice", "bob", .like, 0, 0, "s1", "m1"⟩,
       ⟨"alice", "bob", .pass, 0, 0, "s9", "m9"⟩]) "alice" "bob" ≤ 1 := by
  have hmain := duplicate_swipe_always_fails mutualDB1 "alice" "bob" .pass 3 3 "s9" "m9"
    (by decide) (by decide) (by decide)
  exact ⟨hmain.2.1 (by decide), hmain.2.2.2 ["alice", "bob"] _ "alice" "bob"⟩

/-! ## Claim C3 -/

/-- C3: from a well-formed store, if `a` likes `b` and then `b` likes `a`, the
second call reports `matchCreated = true` and exactly one Match exists for the
unordered pair, stored with `user1Id` the lexicographically smaller id,
`user2Id` the larger, and `lastInteraction` initialized to the creation
instant; no later sequence of calls ever creates another Match for the pair. -/
theorem mutual_like_creates_unique_match
    {db db1 db2 : SwipeDB} {a b : String} {d1 n1 d2 n2 : Nat} {s1 m1 s2 m2 : String}
    {r1 r2 : SwipeResult}
    (hwf : MatchesWF db)
    (h1 : recordSwipe db a b .like d1 n1 s1 m1 = .ok (db1, r1))
    (h2 : recordSwipe db1 b a .like d2 n2 s2 m2 = .ok (db2, r2)) :
    r2.matchCreated = true ∧
    pairMatchCount db2 a b = 1 ∧
    (∃ mr ∈ db2.matchRows,
        mr.user1Id = (if lexLt a b then a else b) ∧
        mr.user2Id = (if lexLt a b then b else a) ∧
        lexLt mr.user1Id mr.user2Id = true ∧
        mr.createdAt = n2 ∧ mr.lastInteraction = some n2) ∧
    (∀ es : List SwipeEvent, pairMatchCount (runSwipes db2 es) a b = 1) := by
  obtain ⟨hne1, -, -, hdup1, -, hswipes1, -, -, -, hdisj1⟩ := recordSwipe_ok_spec h1
  obtain ⟨hne2, -, -, hdup2, -, hswipes2, -, -, -, hdisj2⟩ := recordSwipe_ok_spec h2
  rw [hswipes1] at hdup2
  have hmr1 : db1.matchRows = db.matchRows := by
    rcases hdisj1 with ⟨-, hmr, -⟩ | ⟨-, -, -, ⟨rv, hrv, -⟩, -⟩
    · exact hmr
    · rw [hdup2] at hrv; exact Option.noConfusion hrv
  have hfindrev : (db1.swipes ++ [(⟨s2, b, a, .like, d2⟩ : SwipeRow)]).find?
      (fun s => s.actorId == a && s.targetId == b) =
      some (⟨s1, a, b, .like, d1⟩ : SwipeRow) := by
    rw [hswipes1, List.find?_append, List.find?_append, hdup1]
    simp
  have hcount0 : pairMatchCount db a b = 0 := pairMatchCount_eq_zero_of_no_swipe hwf hdup1
  have hfindmatch : db1.matchRows.find? (fun m =>
      m.user1Id == (if lexLt b a then b else a) &&
      m.user2Id == (if lexLt b a then a else b)) = none := by
    rw [hmr1]
    refine find?_match_eq_none_of_count_zero ?_ hcount0
    by_cases hba : lexLt b a = true
    · simp [hba]
    · simp [hba]
  rcases hdisj2 with ⟨-, -, hreason⟩ | ⟨hmc, -, hmr2, -, -⟩
  · exfalso
    rcases hreason with hpass | hrevnone | ⟨rv, hrvsome, hrvnotlike⟩ | hmatchsome
    · exact Direction.noConfusion hpass
    · rw [hfindrev] at hrevnone; exact Option.noConfusion hrevnone
    · rw [hfindrev] at hrvsome
      have hrveq : (⟨s1, a, b, .like, d1⟩ : SwipeRow) = rv := by
        injection hrvsome
      exact hrvnotlike (by rw [← hrveq])
    · rw [hfindmatch] at hmatchsome
      exact Bool.noConfusion hmatchsome
  have hcount1 : pairMatchCount db2 a b = 1 := by
    rw [pairMatchCount_eq_of_append hmr2, pairMatchCount_eq_of_matchRows hmr1, hcount0]
    by_cases hba : lexLt b a = true
    · simp [hba]
    · simp [hba]
  have hwf2 : MatchesWF db2 :=
    matchesWF_recordSwipe_ok (matchesWF_recordSwipe_ok hwf h1) h2
  refine ⟨hmc, hcount1, ?_, ?_⟩
  · refine ⟨⟨m2, if lexLt b a then b else a, if lexLt b a then a else b, n2, some n2⟩,
      by rw [hmr2]; exact List.mem_append_right _ (List.mem_singleton.mpr rfl),
      ?_, ?_, ?_, rfl, rfl⟩
    · by_cases hab : lexLt a b = true
      · have hba := lexLt_asymm a b hab
        simp [hab, hba]
      · have hba : lexLt b a = true := (lexLt_total a b hne1).resolve_left hab
        simp [hab, hba]
    · by_cases hab : lexLt a b = true
      · have hba := lexLt_asymm a b hab
        simp [hab, hba]
      · have hba : lexLt b a = true := (lexLt_total a b hne1).resolve_left hab
        simp [hab, hba]
    · by_cases hba : lexLt b a = true
      · simp [hba]
      · have hab : lexLt a b = true := (lexLt_total b a (Ne.symm hne1)).resolve_left hba
        simpa [hba] using hab
  · intro es
    rw [runSwipes_pairMatchCount_stable es db2 a b hwf2 (by omega)]
    exact hcount1

/-- Witness for C3: the alice/bob mutual like creates exactly one Match, which
survives a further (rejected) swipe attempt. -/
theorem mutual_like_creates_unique_match_witness :
    pairMatchCount mutualDB2 "alice" "bob" = 1 ∧
    pairMatchCount (runSwipes mutualDB2
      [⟨"alice", "bob", .like, 1, 9, "s3", "m3"⟩]) "alice" "bob" = 1 := by
  have hmain := mutual_like_creates_unique_match
    (show MatchesWF (initDB ["alice", "bob"]) by intro m hm; simp [initDB] at hm)
    (show recordSwipe (initDB ["alice", "bob"]) "alice" "bob" .like 0 0 "s1" "m1" =
        .ok (mutualDB1, ⟨true, "s1", false, "Swiped like"⟩) by decide)
    (show recordSwipe mutualDB1 "bob" "alice" .like 0 7 "s2" "m2" =
        .ok (mutualDB2, ⟨true, "s2", true, "Mutual like! Match created"⟩) by decide)
  exact ⟨hmain.2.1, hmain.2.2.2 [⟨"alice", "bob", .like, 1, 9, "s3", "m3"⟩]⟩

/-! ## Helper lemmas: assertMatchParticipant -/

theorem assertMatchParticipant_error_shape {db : SwipeDB} {matchId userId : String}
    {e : SwipeErr} (h : assertMatchParticipant db matchId userId = .error e) :
    e = .matchNotFound ∨ e = .unauthorizedMatch := by
  rw [assertMatchParticipant] at h
  cases hfind : db.matchRows.find? (fun m => m.id == matchId) with
  | none =>
    rw [hfind] at h
    dsimp only at h
    left
    injection h with h'
    exact h'.symm
  | some m0 =>
    rw [hfind] at h
    dsimp only at h
    by_cases hauth : (!(m0.user1Id == userId) && !(m0.user2Id == userId)) = true
    · rw [if_pos hauth] at h
      right
      injection h with h'
      exact h'.symm
    · rw [if_neg hauth] at h
      exact Except.noConfusion h

theorem assertMatchParticipant_ok_spec {db : SwipeDB} {matchId userId : String}
    {m : MatchRow} (h : assertMatchParticipant db matchId userId = .ok m) :
    m ∈ db.matchRows ∧ m.id = matchId ∧ (m.user1Id = userId ∨ m.user2Id = userId) := by
  rw [assertMatchParticipant] at h
  cases hfind : db.matchRows.find? (fun m => m.id == matchId) with
  | none =>
    rw [hfind] at h
    exact Except.noConfusion h
  | some m0 =>
    rw [hfind] at h
    dsimp only at h
    by_cases hauth : (!(m0.user1Id == userId) && !(m0.user2Id == userId)) = true
    · rw [if_pos hauth] at h
      exact Except.noConfusion h
    · rw [if_neg hauth] at h
      have hm0 : m0 = m := by injection h
      subst hm0
      refine ⟨List.mem_of_find?_eq_some hfind, by simpa using List.find?_some hfind, ?_⟩
      by_contra hcon
      push_neg at hcon
      exact hauth (by simp [hcon.1, hcon.2])

/-! ## Claim C9 -/

/-- C9: `addMatchMessage` fails with an invalid-content error exactly when the
trimmed content is empty or longer than 1000 characters (so exactly 1000
characters is not invalid and 1001 is); on success the stored and returned
content is exactly the trimmed content and the Match's `lastInteraction` is
set to the new message's timestamp. -/
theorem message_content_validation
    (db : SwipeDB) (matchId senderId content : String) (now : Nat) (newId : String) :
    ((jsTrim content = "" ∨ 1000 < (jsTrim content).length) ↔
      (addMatchMessage db matchId senderId content now newId = .error .emptyContent ∨
       addMatchMessage db matchId senderId content now newId = .error .contentTooLong)) ∧
    (∀ (db' : SwipeDB) (msg : MatchMessage),
      addMatchMessage db matchId senderId content now newId = .ok (db', msg) →
      msg.content = jsTrim content ∧ msg.id = newId ∧ msg.matchId = matchId ∧
      msg.senderId = senderId ∧ msg.createdAt = now ∧
      db'.messages = db.messages ++ [⟨newId, matchId, senderId, jsTrim content, now⟩] ∧
      (∀ mr ∈ db'.matchRows, mr.id = matchId → mr.lastInteraction = some now)) := by
  constructor
  · constructor
    · intro hbad
      rcases hbad with hempty | hlong
      · left
        simp only [addMatchMessage]
        rw [if_pos (by simp [hempty])]
      · right
        have hne' : jsTrim content ≠ "" := by
          intro hc
          rw [hc] at hlong
          simp at hlong
        simp only [addMatchMessage]
        rw [if_neg (by simp [hne']), if_pos hlong]
    · intro herr
      by_cases hempty : jsTrim content = ""
      · exact Or.inl hempty
      by_cases hlong : 1000 < (jsTrim content).length
      · exact Or.inr hlong
      exfalso
      have hred : addMatchMessage db matchId senderId content now newId =
          (match assertMatchParticipant db matchId senderId with
           | .error e => .error e
           | .ok m =>
             .ok ({ db with
                messages := db.messages ++ [⟨newId, m.id, senderId, jsTrim content, now⟩],
                matchRows := db.matchRows.map (fun mr =>
                  if mr.id == m.id then { mr with lastInteraction := some now } else mr) },
               toMatchMessage ⟨newId, m.id, senderId, jsTrim content, now⟩)) := by
        simp only [addMatchMessage]
        rw [if_neg (by simp [hempty]), if_neg hlong]
      rw [hred] at herr
      cases hassert : assertMatchParticipant db matchId senderId with
      | error e =>
        rw [hassert] at herr
        dsimp only at herr
        rcases assertMatchParticipant_error_shape hassert with he | he <;>
          rcases herr with herr | herr <;>
          subst he <;>
          first
          | exact SwipeErr.noConfusion (by injection herr)
      | ok m =>
        rw [hassert] at herr
        dsimp only at herr
        rcases herr with herr | herr <;> exact Except.noConfusion herr
  · intro db' msg hok
    have hempty : ¬ ((jsTrim content == "") = true) := by
      intro hc
      simp only [addMatchMessage] at hok
      rw [if_pos hc] at hok
      exact Except.noConfusion hok
    have hlong : ¬ (1000 < (jsTrim content).length) := by
      intro hc
      simp only [addMatchMessage] at hok
      rw [if_neg hempty, if_pos hc] at hok
      exact Except.noConfusion hok
    simp only [addMatchMessage] at hok
    rw [if_neg hempty, if_neg hlong] at hok
    cases hassert : assertMatchParticipant db matchId senderId with
    | error e =>
      rw [hassert] at hok
      exact Except.noConfusion hok
    | ok m =>
      rw [hassert] at hok
      dsimp only at hok
      obtain ⟨-, hmid, -⟩ := assertMatchParticipant_ok_spec hassert
      simp only [Except.ok.injEq, Prod.mk.injEq] at hok
      obtain ⟨hdb, hmsg⟩ := hok
      subst hdb
      subst hmsg
      refine ⟨rfl, rfl, hmid, rfl, rfl, by rw [hmid], ?_⟩
      intro mr hmr hmrid
      rcases List.mem_map.mp hmr with ⟨orig, horig, heq⟩
      by_cases hcase : (orig.id == m.id) = true
      · rw [if_pos hcase] at heq
        rw [← heq]
      · rw [if_neg hcase] at heq
        subst heq
        exact absurd (by simp [hmrid, hmid]) hcase

/-- Witness for C9: posting `"  hi there  "` to the alice/bob match stores the
trimmed content and stamps the match. -/
theorem message_content_validation_witness :
    (⟨"msg1", "m1", "alice", "hi there", 5⟩ : MatchMessage).content = jsTrim "  hi there  " ∧
    msgDBAfter.messages = msgDB.messages ++ [⟨"msg1", "m1", "alice", jsTrim "  hi there  ", 5⟩] := by
  have hmain := (message_content_validation msgDB "m1" "alice" "  hi there  " 5 "msg1").2
    msgDBAfter ⟨"msg1", "m1", "alice", "hi there", 5⟩ (by decide)
  exact ⟨hmain.1, hmain.2.2.2.2.2.1⟩

/-! ## Claim C10 -/

/-- C10: content validation runs before the match lookup: for every store,
invalid trimmed content yields the matching invalid-content error (never
NotFound or Forbidden); for valid content, a missing match yields NotFound
even when the sender would also be unauthorized, and Forbidden arises only
when the match exists and the sender is neither participant. -/
theorem message_check_order
    (db : SwipeDB) (matchId senderId content : String) (now : Nat) (newId : String) :
    (jsTrim content = "" →
      addMatchMessage db matchId senderId content now newId = .error .emptyContent) ∧
    (jsTrim content ≠ "" → 1000 < (jsTrim content).length →
      addMatchMessage db matchId senderId content now newId = .error .contentTooLong) ∧
    (jsTrim content ≠ "" → (jsTrim content).length ≤ 1000 →
      db.matchRows.find? (fun m => m.id == matchId) = none →
      addMatchMessage db matchId senderId content now newId = .error .matchNotFound) ∧
    (∀ m : MatchRow, jsTrim content ≠ "" → (jsTrim content).length ≤ 1000 →
      db.matchRows.find? (fun m => m.id == matchId) = some m →
      m.user1Id ≠ senderId → m.user2Id ≠ senderId →
      addMatchMessage db matchId senderId content now newId = .error .unauthorizedMatch) := by
  refine ⟨?_, ?_, ?_, ?_⟩
  · intro hempty
    simp only [addMatchMessage]
    rw [if_pos (by simp [hempty])]
  · intro hne hlong
    simp only [addMatchMessage]
    rw [if_neg (by simp [hne]), if_pos hlong]
  · intro hne hshort hfind
    simp only [addMatchMessage]
    rw [if_neg (by simp [hne]), if_neg (by omega), assertMatchParticipant, hfind]
  · intro m hne hshort hfind h1 h2
    simp only [addMatchMessage]
    rw [if_neg (by simp [hne]), if_neg (by omega), assertMatchParticipant, hfind]
    dsimp only
    rw [if_pos (by simp [h1, h2])]

/-- Witness for C10: whitespace-only content is rejected as invalid even on a
missing match with a foreign sender; valid content on a missing match is
NotFound; valid content from a non-participant on an existing match is
Forbidden. -/
theorem message_check_order_witness :
    addMatchMessage msgDB "m2" "eve" "   " 5 "msg1" = .error .emptyContent ∧
    addMatchMessage msgDB "m2" "alice" "hi" 5 "msg1" = .error .matchNotFound ∧
    addMatchMessage msgDB "m1" "eve" "hi" 5 "msg1" = .error .unauthorizedMatch := by
  refine ⟨(message_check_order msgDB "m2" "eve" "   " 5 "msg1").1 (by decide),
    (message_check_order msgDB "m2" "alice" "hi" 5 "msg1").2.2.1
      (by decide) (by decide) (by decide),
    (message_check_order msgDB "m1" "eve" "hi" 5 "msg1").2.2.2
      ⟨"m1", "alice", "bob", 0, none⟩ (by decide) (by decide) (by decide)
      (by decide) (by decide)⟩

/-! ## Claim C8 -/

/-- C8: `haversineDistance` is exactly the haversine formula with Earth radius
3959 miles on degree inputs converted to radians
(`2·3959·atan2(√a, √(1-a))` with
`a = sin²(Δlat/2) + cos(lat1)·cos(lat2)·sin²(Δlng/2)`); being a function it is
deterministic, and it is symmetric in its two points and zero for identical
points. -/
theorem haversine_formula_properties :
    (∀ lat1 lng1 lat2 lng2 : ℝ,
      haversineDistance lat1 lng1 lat2 lng2 =
        2 * 3959 * atan2
          (Real.sqrt (Real.sin (toRadians (lat2 - lat1) / 2) ^ 2 +
            Real.cos (toRadians lat1) * Real.cos (toRadians lat2) *
              Real.sin (toRadians (lng2 - lng1) / 2) ^ 2))
          (Real.sqrt (1 - (Real.sin (toRadians (lat2 - lat1) / 2) ^ 2 +
            Real.cos (toRadians lat1) * Real.cos (toRadians lat2) *
              Real.sin (toRadians (lng2 - lng1) / 2) ^ 2)))) ∧
    (∀ lat1 lng1 lat2 lng2 : ℝ,
      haversineDistance lat1 lng1 lat2 lng2 = haversineDistance lat2 lng2 lat1 lng1) ∧
    (∀ lat lng : ℝ, haversineDistance lat lng lat lng = 0) := by
  have hsy : ∀ lat1 lng1 lat2 lng2 : ℝ,
      havA lat1 lng1 lat2 lng2 = havA lat2 lng2 lat1 lng1 := by
    intro lat1 lng1 lat2 lng2
    rw [havA, havA]
    rw [show toRadians (lat1 - lat2) = -(toRadians (lat2 - lat1)) by
          rw [toRadians, toRadians]; ring,
        show toRadians (lng1 - lng2) = -(toRadians (lng2 - lng1)) by
          rw [toRadians, toRadians]; ring]
    simp only [neg_div, Real.sin_neg]
    ring
  refine ⟨?_, ?_, ?_⟩
  · intro lat1 lng1 lat2 lng2
    have hA : havA lat1 lng1 lat2 lng2 =
        Real.sin (toRadians (lat2 - lat1) / 2) ^ 2 +
          Real.cos (toRadians lat1) * Real.cos (toRadians lat2) *
            Real.sin (toRadians (lng2 - lng1) / 2) ^ 2 := by
      rw [havA]; ring
    simp only [haversineDistance]
    rw [hA]
    ring
  · intro lat1 lng1 lat2 lng2
    simp only [haversineDistance]
    rw [hsy lat1 lng1 lat2 lng2]
  · intro lat lng
    have h0 : havA lat lng lat lng = 0 := by simp [havA, toRadians]
    simp only [haversineDistance, h0, Real.sqrt_zero, sub_zero, Real.sqrt_one]
    rw [atan2, if_pos one_pos]
    norm_num [Real.arctan_zero]

/-! ## Helper lemmas: the discovery sort order -/

theorem discLE_iff_some {a b : DiscoveryProfile} {da dbq : ℚ}
    (ha : a.distance = some da) (hb : b.distance = some dbq) :
    DiscLE a b ↔ (da < dbq ∨ (da = dbq ∧ b.sharedHobbies.length ≤ a.sharedHobbies.length)) := by
  rw [DiscLE, discCmp, ha, hb]
  dsimp only
  by_cases heq : (da - dbq == 0) = true
  · have hdd : da = dbq := by
      have := beq_iff_eq.mp heq
      linarith [this]
    rw [if_pos heq]
    subst hdd
    constructor
    · intro h
      refine Or.inr ⟨rfl, ?_⟩
      exact_mod_cast sub_nonpos.mp h
    · rintro (h | ⟨-, h⟩)
      · exact absurd h (lt_irrefl da)
      · exact sub_nonpos.mpr (by exact_mod_cast h)
  · rw [if_neg heq]
    have hne : da - dbq ≠ 0 := by simpa using heq
    constructor
    · intro h
      exact Or.inl (by
        have h1 : da - dbq < 0 := lt_of_le_of_ne h hne
        linarith)
    · rintro (h | ⟨heq2, -⟩)
      · linarith
      · exact absurd (by rw [heq2]; ring) hne

theorem discLE_none_right (a b : DiscoveryProfile) (hb : b.distance = none) : DiscLE a b := by
  rw [DiscLE, discCmp, hb]
  cases ha : a.distance <;> dsimp only <;> norm_num

theorem discLE_none_left {a b : DiscoveryProfile} (ha : a.distance = none)
    (h : DiscLE a b) : b.distance = none := by
  rw [DiscLE, discCmp, ha] at h
  cases hb : b.distance with
  | none => rfl
  | some dbq =>
    rw [hb] at h
    dsimp only at h
    norm_num at h

instance : IsTotal DiscoveryProfile DiscLE := by
  refine ⟨fun a b => ?_⟩
  cases ha : a.distance with
  | none =>
    cases hb : b.distance with
    | none => left; rw [DiscLE, discCmp, ha, hb]
    | some dbq => right; exact discLE_none_right b a ha
  | some da =>
    cases hb : b.distance with
    | none => left; exact discLE_none_right a b hb
    | some dbq =>
      rcases le_total da dbq with h | h
      · rcases lt_or_eq_of_le h with h | h
        · exact Or.inl ((discLE_iff_some ha hb).mpr (Or.inl h))
        · rcases Nat.le_total b.sharedHobbies.length a.sharedHobbies.length with h2 | h2
          · exact Or.inl ((discLE_iff_some ha hb).mpr (Or.inr ⟨h, h2⟩))
          · exact Or.inr ((discLE_iff_some hb ha).mpr (Or.inr ⟨h.symm, h2⟩))
      · rcases lt_or_eq_of_le h with h | h
        · exact Or.inr ((discLE_iff_some hb ha).mpr (Or.inl h))
        · rcases Nat.le_total b.sharedHobbies.length a.sharedHobbies.length with h2 | h2
          · exact Or.inl ((discLE_iff_some ha hb).mpr (Or.inr ⟨h.symm, h2⟩))
          · exact Or.inr ((discLE_iff_some hb ha).mpr (Or.inr ⟨h, h2⟩))

instance : IsTrans DiscoveryProfile DiscLE := by
  refine ⟨fun a b c h1 h2 => ?_⟩
  cases ha : a.distance with
  | none =>
    have hb := discLE_none_left ha h1
    have hc := discLE_none_left hb h2
    rw [DiscLE, discCmp, ha, hc]
  | some da =>
    cases hc : c.distance with
    | none => exact discLE_none_right a c hc
    | some dc =>
      cases hb : b.distance with
      | none =>
        have := discLE_none_left hb h2
        rw [this] at hc
        exact Option.noConfusion hc
      | some dbq =>
        rcases (discLE_iff_some ha hb).mp h1 with hx | ⟨hx, hx2⟩ <;>
          rcases (discLE_iff_some hb hc).mp h2 with hy | ⟨hy, hy2⟩
        · exact (discLE_iff_some ha hc).mpr (Or.inl (lt_trans hx hy))
        · exact (discLE_iff_some ha hc).mpr (Or.inl (hy ▸ hx))
        · exact (discLE_iff_some ha hc).mpr (Or.inl (hx ▸ hy))
        · exact (discLE_iff_some ha hc).mpr
            (Or.inr ⟨hx.trans hy, Nat.le_trans hy2 hx2⟩)

/-! ## Helper lemmas: getNearbyProfiles -/

/-- Characterization of a successful `getNearbyProfiles` call: the requester's
profile exists, passed the location guard, and the result is the paginated
slice of the transformed list. -/
theorem getNearbyProfiles_ok_spec {dist : ℚ → ℚ → ℚ → ℚ → ℚ} {db : DiscoveryDB}
    {userId : String} {query : DiscoveryQueryInput} {res : DiscoveryResult}
    (h : getNearbyProfiles dist db userId query = .ok res) :
    ∃ userProfile, db.profiles.find? (fun p => p.userId == userId) = some userProfile ∧
      (numFalsy userProfile.locationLat || numFalsy userProfile.locationLng) = false ∧
      res.profiles = ((transformedProfiles dist db userId query userProfile).drop
          (jsOrNat query.offset 0)).take (effLimit query) ∧
      res.hasMore = decide (jsOrNat query.offset 0 + effLimit query <
        (transformedProfiles dist db userId query userProfile).length) ∧
      res.total = (transformedProfiles dist db userId query userProfile).length := by
  rw [getNearbyProfiles] at h
  cases hfind : db.profiles.find? (fun p => p.userId == userId) with
  | none =>
    rw [hfind] at h
    exact Except.noConfusion h
  | some up =>
    rw [hfind] at h
    dsimp only at h
    by_cases hloc : (numFalsy up.locationLat || numFalsy up.locationLng) = true
    · rw [if_pos hloc] at h
      exact Except.noConfusion h
    · rw [if_neg hloc] at h
      simp only [Except.ok.injEq] at h
      subst h
      exact ⟨up, rfl, by simpa using hloc, rfl, rfl, rfl⟩

/-- Any profile in the transformed list is the transform of a stored candidate
that passed the exclusion predicate of the candidate query. -/
theorem mem_transformedProfiles {dist : ℚ → ℚ → ℚ → ℚ → ℚ} {db : DiscoveryDB}
    {userId : String} {query : DiscoveryQueryInput} {up : Profile}
    {p : DiscoveryProfile}
    (hp : p ∈ transformedProfiles dist db userId query up) :
    ∃ q ∈ db.profiles,
      p = transformProfile dist up.locationLat up.locationLng
        ((db.profileHobbies.filter (fun ph => ph.profileId == up.id)).map
          (fun ph => ph.hobbyId)) db.profileHobbies q ∧
      (q.status == some "active" &&
       !(q.locationLat == none) && !(q.locationLng == none) &&
       !(((db.swipes.filter (fun s => s.actorId == userId)).map
          (fun s => s.targetId)).contains q.userId)) = true := by
  simp only [transformedProfiles] at hp
  rw [List.mem_insertionSort] at hp
  rcases List.mem_map.mp hp with ⟨q, hq, rfl⟩
  rcases List.mem_filter.mp hq with ⟨hq2, -⟩
  rcases List.mem_filter.mp hq2 with ⟨hq3, hcand⟩
  exact ⟨q, hq3, rfl, hcand⟩

/-! ## Helper lemmas: pagination -/

theorem jsOrNat_some (o : Nat) : jsOrNat (some o) 0 = o := by
  cases o <;> rfl

theorem effLimit_pos (query : DiscoveryQueryInput) : 1 ≤ effLimit query := by
  rw [effLimit]
  rcases hq : query.limit with _ | n
  · simp [jsOrNat]
  · cases n with
    | zero => simp [jsOrNat]
    | succ k =>
      simp only [jsOrNat]
      omega

/-- The offset does not enter the candidate pipeline. -/
theorem transformedProfiles_setOffset (dist : ℚ → ℚ → ℚ → ℚ → ℚ) (db : DiscoveryDB)
    (userId : String) (query : DiscoveryQueryInput) (o : Nat) (up : Profile) :
    transformedProfiles dist db userId (setOffset query o) up =
      transformedProfiles dist db userId query up := rfl

theorem effLimit_setOffset (query : DiscoveryQueryInput) (o : Nat) :
    effLimit (setOffset query o) = effLimit query := rfl

/-- Evaluation of `getNearbyProfiles` at an explicit offset. -/
theorem getNearbyProfiles_setOffset_eq (dist : ℚ → ℚ → ℚ → ℚ → ℚ) (db : DiscoveryDB)
    (userId : String) (query : DiscoveryQueryInput) (o : Nat) (up : Profile)
    (hfind : db.profiles.find? (fun p => p.userId == userId) = some up)
    (hloc : (numFalsy up.locationLat || numFalsy up.locationLng) = false) :
    getNearbyProfiles dist db userId (setOffset query o) =
      .ok ⟨((transformedProfiles dist db userId query up).drop o).take (effLimit query),
           decide (o + effLimit query < (transformedProfiles dist db userId query up).length),
           (transformedProfiles dist db userId query up).length⟩ := by
  rw [getNearbyProfiles, hfind]
  dsimp only
  rw [if_neg (by simp [hloc])]
  cases o <;> rfl

/-- With enough fuel, paging from `o` collects exactly the dropped suffix. -/
theorem collectPages_drop (dist : ℚ → ℚ → ℚ → ℚ → ℚ) (db : DiscoveryDB) (userId : String)
    (query : DiscoveryQueryInput) (up : Profile)
    (hfind : db.profiles.find? (fun p => p.userId == userId) = some up)
    (hloc : (numFalsy up.locationLat || numFalsy up.locationLng) = false) :
    ∀ fuel o, (transformedProfiles dist db userId query up).length - o ≤ fuel →
      collectPages dist db userId query o fuel =
        (transformedProfiles dist db userId query up).drop o := by
  intro fuel
  induction fuel with
  | zero =>
    intro o ho
    rw [collectPages]
    symm
    rw [List.drop_eq_nil_iff]
    omega
  | succ fuel ih =>
    intro o ho
    rw [collectPages, getNearbyProfiles_setOffset_eq dist db userId query o up hfind hloc]
    dsimp only
    by_cases hmore : o + effLimit query < (transformedProfiles dist db userId query up).length
    · rw [if_pos (by simpa using hmore)]
      rw [ih (o + effLimit query) (by have := effLimit_pos query; omega)]
      have hdd : ((transformedProfiles dist db userId query up).drop o).drop (effLimit query) =
          (transformedProfiles dist db userId query up).drop (o + effLimit query) := by
        rw [List.drop_drop]
      rw [← hdd]
      exact List.take_append_drop _ _
    · rw [if_neg (by simpa using hmore)]
      rw [List.append_nil]
      refine List.take_of_length_le ?_
      rw [List.length_drop]
      omega

/-! ## Claim C6 -/

/-- C6: for a fixed store and fixed filters, `total` equals the length of the
full filtered (pre-pagination) list at every offset, `hasMore` is exactly
`offset + limit < total`, each page is the corresponding slice of the full
list, and paging from offset 0 (stepping by the applied limit while `hasMore`
holds) reproduces the full filtered, sorted list with no duplicates or
omissions. -/
theorem discovery_pagination_consistent
    (dist : ℚ → ℚ → ℚ → ℚ → ℚ) (db : DiscoveryDB) (userId : String)
    (query : DiscoveryQueryInput) (o : Nat) (res : DiscoveryResult)
    (h : getNearbyProfiles dist db userId (setOffset query o) = .ok res) :
    res.total = (fullFeed dist db userId query).length ∧
    res.hasMore = decide (o + effLimit query < res.total) ∧
    res.profiles = ((fullFeed dist db userId query).drop o).take (effLimit query) ∧
    (∀ fuel, (fullFeed dist db userId query).length ≤ fuel →
      collectPages dist db userId query 0 fuel = fullFeed dist db userId query) := by
  obtain ⟨up, hfind, hloc, hprof, hmore, htotal⟩ := getNearbyProfiles_ok_spec h
  rw [transformedProfiles_setOffset] at hprof hmore htotal
  rw [effLimit_setOffset] at hprof hmore
  rw [show (setOffset query o).offset = some o from rfl, jsOrNat_some] at hprof hmore
  have hfull : fullFeed dist db userId query = transformedProfiles dist db userId query up := by
    rw [fullFeed, hfind]
    dsimp only
    rw [if_neg (by simp [hloc])]
  refine ⟨by rw [htotal, hfull], ?_, by rw [hprof, hfull], ?_⟩
  · rw [hmore, htotal]
  · intro fuel hfuel
    rw [hfull] at hfuel
    rw [collectPages_drop dist db userId query up hfind hloc fuel 0 (by omega),
      List.drop_zero, hfull]

/-! ## Claim C5 -/

/-- C5 (amended): the returned profile list is sorted ascending by the rounded
one-decimal distance stored in the `distance` field — the code rounds before
sorting, so the sort key is the rounded distance, not the exact one — with
ties in the rounded distance broken by descending shared-hobby count; every
returned `distance` field is the one-decimal rounding of the exact distance
from the requester. -/
theorem discovery_sorted_by_rounded_distance
    (dist : ℚ → ℚ → ℚ → ℚ → ℚ) (db : DiscoveryDB) (userId : String)
    (query : DiscoveryQueryInput) (res : DiscoveryResult)
    (hok : getNearbyProfiles dist db userId query = .ok res) :
    List.Sorted DiscLE res.profiles ∧
    (∀ (a b : DiscoveryProfile) (da dbq : ℚ), a.distance = some da → b.distance = some dbq →
      (DiscLE a b ↔ (da < dbq ∨ (da = dbq ∧ b.sharedHobbies.length ≤ a.sharedHobbies.length)))) ∧
    (∃ up, db.profiles.find? (fun p => p.userId == userId) = some up ∧
      ∀ p ∈ res.profiles, p.distance = some (round1 (dist (up.locationLat.getD 0)
        (up.locationLng.getD 0) (p.locationLat.getD 0) (p.locationLng.getD 0)))) := by
  obtain ⟨up, hfind, -, hprof, -, -⟩ := getNearbyProfiles_ok_spec hok
  refine ⟨?_, fun a b da dbq ha hb => discLE_iff_some ha hb, up, hfind, ?_⟩
  · rw [hprof]
    have hsorted : List.Sorted DiscLE (transformedProfiles dist db userId query up) := by
      rw [transformedProfiles]
      exact List.sorted_insertionSort DiscLE _
    exact List.Pairwise.sublist
      ((List.take_sublist _ _).trans (List.drop_sublist _ _)) hsorted
  · rw [hprof]
    intro p hp
    obtain ⟨q, -, rfl, -⟩ := mem_transformedProfiles
      (List.mem_of_mem_drop (List.mem_of_mem_take hp))
    rfl

/-! ## Evaluation of the discovery fixtures -/

theorem round1_five : round1 5 = 5 := by
  rw [round1, show ((5:ℚ) * 10 + 1/2) = 101/2 from by norm_num,
    show (⌊(101:ℚ)/2⌋ : ℤ) = 50 from by norm_num [Int.floor_eq_iff]]
  norm_num

theorem qLow_eq : qLow = 124 / 25 := by
  rw [← Rat.num_div_den qLow]
  norm_num [show qLow.num = 124 from rfl, show qLow.den = 25 from rfl]

theorem qHigh_eq : qHigh = 126 / 25 := by
  rw [← Rat.num_div_den qHigh]
  norm_num [show qHigh.num = 126 from rfl, show qHigh.den = 25 from rfl]

theorem round1_low : round1 qLow = 5 := by
  rw [round1, qLow_eq, show ((124:ℚ)/25 * 10 + 1/2) = 501/10 from by norm_num,
    show (⌊(501:ℚ)/10⌋ : ℤ) = 50 from by norm_num [Int.floor_eq_iff]]
  norm_num

theorem round1_high : round1 qHigh = 5 := by
  rw [round1, qHigh_eq, show ((126:ℚ)/25 * 10 + 1/2) = 509/10 from by norm_num,
    show (⌊(509:ℚ)/10⌋ : ℤ) = 50 from by norm_num [Int.floor_eq_iff]]
  norm_num

theorem discTransEval :
    transformedProfiles distConst discDB "u" emptyQuery reqProfile = [cOut] := by
  have h1 : transformedProfiles distConst discDB "u" emptyQuery reqProfile =
      [⟨"pc", "c", none, none, none, none, none, some "active", some 2, some 2,
        some (round1 5), [], []⟩] := by rfl
  rw [h1, round1_five]
  rfl

theorem discCallEval0 :
    getNearbyProfiles distConst discDB "u" emptyQuery = .ok ⟨[cOut], false, 1⟩ := by
  rw [getNearbyProfiles,
    show discDB.profiles.find? (fun p => p.userId == "u") = some reqProfile from by decide]
  dsimp only
  rw [if_neg (by decide)]
  rw [discTransEval]
  rfl

theorem discCallEvalOffset :
    getNearbyProfiles distConst discDB "u" (setOffset emptyQuery 0) = .ok ⟨[cOut], false, 1⟩ := by
  rw [getNearbyProfiles_setOffset_eq distConst discDB "u" emptyQuery 0 reqProfile
    (by decide) (by decide)]
  rw [discTransEval]
  rfl

theorem sortTransEval :
    transformedProfiles distTenths sortDB "u" emptyQuery reqSort = [yOut, xOut] := by
  have h1 : transformedProfiles distTenths sortDB "u" emptyQuery reqSort =
      List.insertionSort DiscLE
        [⟨"px", "x", none, none, none, none, none, some "active", some 1, some 1,
          some (round1 qLow), [], []⟩,
         ⟨"py", "y", none, none, none, none, none, some "active", some 2, some 1,
          some (round1 qHigh), [hobbyChess], []⟩] := by rfl
  rw [h1, round1_low, round1_high]
  have hnotle : ¬ DiscLE xOut yOut := by
    rw [discLE_iff_some (show xOut.distance = some 5 from rfl)
      (show yOut.distance = some 5 from rfl)]
    norm_num [xOut, yOut]
  show List.orderedInsert DiscLE xOut [yOut] = [yOut, xOut]
  rw [List.orderedInsert, if_neg hnotle]
  rfl

theorem sortCallEval :
    getNearbyProfiles distTenths sortDB "u" emptyQuery = .ok ⟨[yOut, xOut], false, 2⟩ := by
  rw [getNearbyProfiles,
    show sortDB.profiles.find? (fun p => p.userId == "u") = some reqSort from by decide]
  dsimp only
  rw [if_neg (by decide)]
  rw [sortTransEval]
  rfl

theorem selfTransEval :
    transformedProfiles distConst selfDB "w" emptyQuery selfProfile = [wOut] := by
  have h1 : transformedProfiles distConst selfDB "w" emptyQuery selfProfile =
      [⟨"pw", "w", none, none, none, none, none, some "active", some 1, some 1,
        some (round1 5), [], []⟩] := by rfl
  rw [h1, round1_five]
  rfl

theorem discFeedEval : fullFeed distConst discDB "u" emptyQuery = [cOut] := by
  rw [fullFeed,
    show discDB.profiles.find? (fun p => p.userId == "u") = some reqProfile from by decide]
  dsimp only
  rw [if_neg (by decide)]
  exact discTransEval

/-! ## Claim C7 -/

/-- C7: the JS falsiness guard `!locationLat || !locationLng` treats the
stored coordinate 0 as missing — a requester stored at latitude 0 (a valid
equator coordinate) and longitude 10 is rejected with the location-required
error, while a requester with nonzero stored coordinates is not. -/
theorem discovery_location_zero_rejected :
    equatorProfile.locationLat = some 0 ∧
    equatorProfile.locationLng = some 10 ∧
    getNearbyProfiles distConst equatorDB "e" emptyQuery = .error .locationRequired ∧
    getNearbyProfiles distConst discDB "u" emptyQuery ≠ .error .locationRequired := by
  refine ⟨rfl, rfl, by decide, ?_⟩
  rw [discCallEval0]
  simp

/-! ## Claim C5: counterexample and witness -/

/-- Counterexample to C5 as stated: the feed returns `y` (exact distance 5.04
miles, one shared hobby) strictly before `x` (exact distance 4.96 miles, no
shared hobbies), because both round to 5.0 and the hobby tiebreak applies to
the rounded values — so the list is not sorted by the exact step-4 distance. -/
theorem discovery_sort_uses_rounded_cex :
    getNearbyProfiles distTenths sortDB "u" emptyQuery = .ok ⟨[yOut, xOut], false, 2⟩ ∧
    distTenths 3 3 (xOut.locationLat.getD 0) (xOut.locationLng.getD 0) <
      distTenths 3 3 (yOut.locationLat.getD 0) (yOut.locationLng.getD 0) ∧
    ¬ List.Pairwise (fun p q : DiscoveryProfile =>
        distTenths 3 3 (p.locationLat.getD 0) (p.locationLng.getD 0) ≤
        distTenths 3 3 (q.locationLat.getD 0) (q.locationLng.getD 0)) [yOut, xOut] := by
  refine ⟨sortCallEval, ?_, ?_⟩
  · norm_num [distTenths, xOut, yOut, beq_iff_eq, qLow_eq, qHigh_eq]
  · intro hpair
    obtain ⟨hhead, -⟩ := List.pairwise_cons.mp hpair
    have h2 := hhead xOut (List.mem_singleton.mpr rfl)
    norm_num [distTenths, xOut, yOut, beq_iff_eq, qLow_eq, qHigh_eq] at h2

/-- Witness for the amended C5: the fixture feed is sorted in the comparator
order and the head's `distance` field is the rounding of its exact distance. -/
theorem discovery_sorted_by_rounded_distance_witness :
    List.Sorted DiscLE [yOut, xOut] ∧
    yOut.distance = some (round1 (distTenths 3 3 2 1)) := by
  have hmain := discovery_sorted_by_rounded_distance distTenths sortDB "u" emptyQuery
    ⟨[yOut, xOut], false, 2⟩ sortCallEval
  obtain ⟨up, hfind, hdist⟩ := hmain.2.2
  have hup : up = reqSort := by
    rw [show sortDB.profiles.find? (fun p => p.userId == "u") = some reqSort from by decide]
      at hfind
    injection hfind with hinj
    exact hinj.symm
  subst hup
  refine ⟨hmain.1, ?_⟩
  have hy := hdist yOut (by simp)
  simpa [reqSort, yOut] using hy

/-! ## Claim C1 -/

/-- C1 (code bug): the candidate query's where-object
(discovery.service.ts lines 98-104) spells the key `userId` twice, and a
JavaScript object literal keeps only the last duplicate key, so the
self-exclusion clause of line 99 is discarded at runtime: the active
requester `w` with stored coordinates receives their own stored profile in
their own discovery feed, contradicting the claim that the result never
contains the requester.  The surviving `notIn` clause of line 103 still
works: the already-swiped `z`, whose active located profile is also stored,
is absent from the result. -/
theorem discovery_includes_self_bug :
    selfProfile.userId = "w" ∧
    selfProfile.status = some "active" ∧
    selfProfile.locationLat = some 1 ∧ selfProfile.locationLng = some 1 ∧
    selfProfile ∈ selfDB.profiles ∧
    swipedProfile ∈ selfDB.profiles ∧
    (∃ s ∈ selfDB.swipes, s.actorId = "w" ∧ s.targetId = swipedProfile.userId) ∧
    getNearbyProfiles distConst selfDB "w" emptyQuery = .ok ⟨[wOut], false, 1⟩ ∧
    wOut.userId = "w" := by
  refine ⟨rfl, rfl, rfl, rfl, by simp [selfDB], by simp [selfDB], ?_, ?_, rfl⟩
  · exact ⟨⟨"s1", "w", "z", .like, 0⟩, by simp [selfDB], rfl, rfl⟩
  · rw [getNearbyProfiles,
      show selfDB.profiles.find? (fun p => p.userId == "w") = some selfProfile from by decide]
    dsimp only
    rw [if_neg (by decide)]
    rw [selfTransEval]
    rfl

/-! ## Claim C6: witness -/

/-- Witness for C6: on the fixture store, the page at offset 0 carries the
correct total and paging with fuel 1 reproduces the full feed. -/
theorem discovery_pagination_consistent_witness :
    (⟨[cOut], false, 1⟩ : DiscoveryResult).total =
      (fullFeed distConst discDB "u" emptyQuery).length ∧
    collectPages distConst discDB "u" emptyQuery 0 1 =
      fullFeed distConst discDB "u" emptyQuery := by
  have hmain := discovery_pagination_consistent distConst discDB "u" emptyQuery 0
    ⟨[cOut], false, 1⟩ discCallEvalOffset
  exact ⟨hmain.1, hmain.2.2.2 1 (by rw [discFeedEval]; simp)⟩

end AstolfoFinder
